import Mathlib

/-!
Grafeas v1alpha1 request handlers

A shallow embedding of `samples/server/go-server/api/server/v1alpha1/impl.go`.

Conventions of the embedding:

* a Go pointer `*T` is an `Option T` (`none` is `nil`), a slice `[]*T` is a
  `List (Option T)`; a nil-pointer dereference ends the handler in `Outcome.panic`;
* a Go map `map[string]*T` is the list of its entries, a `List (String × Option T)`
  with distinct keys whose order has no meaning; a `range` over a map yields the
  entries in an order the runtime chooses anew at every run, so a handler that ranges
  over a map takes that order as an argument `visit`, a permutation of the entries;
* a Go `error` is an `Option Err` (`none` is `nil`);
* a handler returning `(*T, error)` returns `Outcome.ret val err`, both components
  independently nil or not, exactly as the Go `return` statement gives them;
* the storage collaborator `server.Storager`, the `name` package and `uuid.NewRandom`
  are not part of the file: they are parameters (`Storager`, `Deps`);
* every storage call is recorded in `World.trace`, so that "storage is not called"
  is a statement about the trace;
* `log.Print*` calls produce no value and are left out, except that an argument
  which dereferences a pointer is kept as a possible panic;
* a message carries the fields the handlers read; of the fields they never read,
  `Note` and `Occurrence` keep a few, the other messages none.
-/

namespace Grafeas

/-! ## Errors -/

/-- Status kinds of `google.golang.org/grpc/codes` a non-nil error can carry
(`status.Error(codes.OK, _)` is `nil`, so `OK` is not among them). -/
inductive Code
  | Canceled | Unknown | InvalidArgument | DeadlineExceeded | NotFound | AlreadyExists
  | PermissionDenied | ResourceExhausted | FailedPrecondition | Aborted | OutOfRange
  | Unimplemented | Internal | Unavailable | DataLoss | Unauthenticated
  deriving DecidableEq, Repr

/-- A non-nil Go `error`: either a gRPC status error or any other error value. -/
inductive Err
  | status (code : Code) (msg : String)
  | plain (msg : String)
  deriving DecidableEq, Repr

/-- The kind of an error, as `status.Code` reports it: a non-status error is `Unknown`. -/
def Err.kind : Err → Code
  | .status c _ => c
  | .plain _ => Code.Unknown

/-- Rendering of an `error` by the `%v` verb of `fmt`. -/
def fmtErr : Option Err → String
  | none => "<nil>"
  | some (.status _ m) => m
  | some (.plain m) => m

/-! ## Messages -/

structure Project where
  Name : String
  deriving DecidableEq, Repr

structure Note where
  Name : String
  ShortDescription : String
  LongDescription : String
  deriving DecidableEq, Repr

structure Occurrence where
  Name : String
  NoteName : String
  Remediation : String
  deriving DecidableEq, Repr

/-- The message types are declared in the imported `grafeas_go_proto` package, not in the
file. There the field `Notes` of this request is a map from note ID to note
(`map[string]*Note`): the list holds its entries, with distinct keys, and the order of
the list has no meaning. The field `Notes` of the response and the field `Occurrences`
of `BatchCreateOccurrencesRequest` are slices. -/
structure BatchCreateNotesRequest where
  Notes : List (String × Option Note)
  deriving DecidableEq, Repr

structure BatchCreateNotesResponse where
  Notes : List (Option Note)
  deriving DecidableEq, Repr

structure BatchCreateOccurrencesRequest where
  Parent : String
  Occurrences : List (Option Occurrence)
  deriving DecidableEq, Repr

structure BatchCreateOccurrencesResponse where
  Occurrences : List (Option Occurrence)
  deriving DecidableEq, Repr

structure CreateProjectRequest where
  Project : Option Project
  deriving DecidableEq, Repr

structure CreateNoteRequest where
  Note : Option Note
  deriving DecidableEq, Repr

structure CreateOccurrenceRequest where
  Parent : String
  Occurrence : Option Occurrence
  deriving DecidableEq, Repr

/-- Shape shared by the requests that only carry a resource name
(`DeleteProjectRequest`, `GetNoteRequest`, `GetOccurrenceNoteRequest`, ...). -/
structure NameRequest where
  Name : String
  deriving DecidableEq, Repr

structure UpdateNoteRequest where
  Name : String
  Note : Option Note
  deriving DecidableEq, Repr

structure UpdateOccurrenceRequest where
  Name : String
  Occurrence : Option Occurrence
  deriving DecidableEq, Repr

structure ListProjectsRequest where
  Filter : String
  PageSize : Int
  PageToken : String
  deriving DecidableEq, Repr

structure ListProjectsResponse where
  Projects : List (Option Project)
  NextPageToken : String
  deriving DecidableEq, Repr

/-- Shape of `ListNotesRequest` and `ListOccurrencesRequest`. -/
structure ListRequest where
  Parent : String
  Filter : String
  PageSize : Int
  PageToken : String
  deriving DecidableEq, Repr

structure ListNoteOccurrencesRequest where
  Name : String
  Filter : String
  PageSize : Int
  PageToken : String
  deriving DecidableEq, Repr

structure ListNotesResponse where
  Notes : List (Option Note)
  NextPageToken : String
  deriving DecidableEq, Repr

/-- Shape of `ListOccurrencesResponse` and `ListNoteOccurrencesResponse`. -/
structure ListOccurrencesResponse where
  Occurrences : List (Option Occurrence)
  NextPageToken : String
  deriving DecidableEq, Repr

structure GetVulnerabilityOccurrencesSummaryRequest where
  Parent : String
  Filter : String
  deriving DecidableEq, Repr

/-- The summary message; no handler ever builds one. -/
structure VulnerabilityOccurrencesSummary where
  Counts : List Nat
  deriving DecidableEq, Repr

/-- The `empty.Empty` message. -/
structure Empty where
  deriving DecidableEq, Repr

/-! ## Collaborators -/

/-- The storage port `server.Storager`, over an abstract storage state `σ`.
Each operation takes the state and gives its Go results and the next state.
The write operations take the message itself: at every call site of the handlers
the pointer has already been dereferenced. -/
structure Storager (σ : Type) where
  CreateProject : String → σ → Option Err × σ
  GetProject : String → σ → (Option Project × Option Err) × σ
  DeleteProject : String → σ → Option Err × σ
  ListProjects : String → Int → String → σ → (List (Option Project) × String × Option Err) × σ
  CreateNote : Note → σ → Option Err × σ
  GetNote : String → String → σ → (Option Note × Option Err) × σ
  UpdateNote : String → String → Note → σ → Option Err × σ
  DeleteNote : String → String → σ → Option Err × σ
  ListNotes : String → String → Int → String → σ → (List (Option Note) × String × Option Err) × σ
  CreateOccurrence : Occurrence → σ → Option Err × σ
  GetOccurrence : String → String → σ → (Option Occurrence × Option Err) × σ
  UpdateOccurrence : String → String → Occurrence → σ → Option Err × σ
  DeleteOccurrence : String → String → σ → Option Err × σ
  ListOccurrences : String → String → Int → String → σ →
    (List (Option Occurrence) × String × Option Err) × σ
  ListNoteOccurrences : String → String → String → Int → String → σ →
    (List (Option Occurrence) × String × Option Err) × σ

/-- The functions of the `name` package and of `uuid` the handlers call.
`NewRandom k` is the result of the `k`-th call of `uuid.NewRandom` (numbered from 0),
already rendered by `String()`. -/
structure Deps where
  ParseProject : String → Except Err String
  ParseNote : String → Except Err (String × String)
  ParseOccurrence : String → Except Err (String × String)
  OccurrenceName : String → String → String
  NewRandom : Nat → Except Err String

/-- The receiver type `Grafeas`. -/
structure Server (σ : Type) where
  S : Storager σ

/-- One call of the storage port, with its arguments. -/
inductive Call
  | CreateProject (pID : String)
  | GetProject (pID : String)
  | DeleteProject (pID : String)
  | ListProjects (filter : String) (pageSize : Int) (pageToken : String)
  | CreateNote (n : Note)
  | GetNote (pID nID : String)
  | UpdateNote (pID nID : String) (n : Note)
  | DeleteNote (pID nID : String)
  | ListNotes (pID filter : String) (pageSize : Int) (pageToken : String)
  | CreateOccurrence (o : Occurrence)
  | GetOccurrence (pID oID : String)
  | UpdateOccurrence (pID oID : String) (o : Occurrence)
  | DeleteOccurrence (pID oID : String)
  | ListOccurrences (pID filter : String) (pageSize : Int) (pageToken : String)
  | ListNoteOccurrences (pID nID filter : String) (pageSize : Int) (pageToken : String)
  deriving DecidableEq, Repr

/-- What a handler runs against: the storage state, the storage calls made so far
(oldest first) and the number of identifiers drawn from `uuid.NewRandom`. -/
structure World (σ : Type) where
  store : σ
  trace : List Call
  drawn : Nat
  deriving DecidableEq, Repr

/-- Result of a handler of Go type `(*α, error)`. -/
inductive Outcome (α : Type)
  | panic
  | ret (val : Option α) (err : Option Err)
  deriving DecidableEq, Repr

/-- Run a storage operation on the world and record the call. -/
def World.call {σ ρ : Type} (w : World σ) (c : Call) (op : σ → ρ × σ) : ρ × World σ :=
  ((op w.store).1, { w with store := (op w.store).2, trace := w.trace ++ [c] })

/-- One call of `uuid.NewRandom`. -/
def World.newRandom {σ : Type} (D : Deps) (w : World σ) : Except Err String × World σ :=
  (D.NewRandom w.drawn, { w with drawn := w.drawn + 1 })

/-- `status.Error(c, msg)` as a returned error. -/
def statusError (c : Code) (msg : String) : Option Err := some (Err.status c msg)

/-- maxBatch is the maximum data size in the batch API. -/
def maxBatch : Nat := 1000

/-! ## Handlers

Every handler takes the collaborators, the receiver, the request pointer and the
world, and gives its Go results and the world it leaves. -/

section Handlers

variable {σ : Type}

def GetVulnerabilityOccurrencesSummary (_g : Server σ)
    (_req : Option GetVulnerabilityOccurrencesSummaryRequest) (w : World σ) :
    Outcome VulnerabilityOccurrencesSummary × World σ :=
  (.ret none (statusError .Unimplemented
    "GetVulnerabilityOccurrencesSummary is not yet implemented"), w)

/-- createNote validates that a note is valid and then creates a note in the backing
datastore. -/
def createNote (D : Deps) (g : Server σ) (n : Option Note) (w : World σ) :
    Outcome Note × World σ :=
  match n with
  | none => (.ret none (statusError .InvalidArgument "Note must not be empty"), w)
  | some n =>
    if n.Name = "" then
      (.ret none (statusError .InvalidArgument "Note name must not be empty"), w)
    else
      match D.ParseNote n.Name with
      | .error _ => (.ret none (statusError .InvalidArgument "Invalid note name"), w)
      | .ok (pID, _) =>
        let r1 := w.call (.GetProject pID) (g.S.GetProject pID)
        if r1.1.2 ≠ none then
          (.ret none (statusError .NotFound ("Project " ++ pID ++ " not found")), r1.2)
        else
          let r2 := r1.2.call (.CreateNote n) (g.S.CreateNote n)
          (.ret (some n) r2.1, r2.2)

/-- createOccurrence validates that a note is valid and then creates an occurrence in
the backing datastore. -/
def createOccurrence (D : Deps) (g : Server σ) (o : Option Occurrence) (project : String)
    (w : World σ) : Outcome Occurrence × World σ :=
  match o with
  | none => (.ret none (statusError .InvalidArgument "occurrence must not be empty"), w)
  | some o =>
    match D.ParseNote o.NoteName with
    | .error _ => (.ret none (statusError .InvalidArgument "invalid note name"), w)
    | .ok (npID, nID) =>
      let r1 := w.call (.GetNote npID nID) (g.S.GetNote npID nID)
      if r1.1.1 = none ∨ r1.1.2 ≠ none then
        (.ret none (statusError .NotFound ("note " ++ o.NoteName ++ " not found")), r1.2)
      else
        match D.ParseProject project with
        | .error _ => (.ret none (statusError .InvalidArgument "invalid project name"), r1.2)
        | .ok pID =>
          let r2 := r1.2.call (.GetProject pID) (g.S.GetProject pID)
          if r2.1.2 ≠ none then
            (.ret none (statusError .NotFound ("project " ++ pID ++ " not found")), r2.2)
          else
            let r3 := r2.2.newRandom D
            match r3.1 with
            | .error _ =>
              (.ret none (statusError .Internal "could not generate occurrence name"), r3.2)
            | .ok randID =>
              let o1 : Occurrence := { o with Name := D.OccurrenceName pID randID }
              let r4 := r3.2.call (.CreateOccurrence o1) (g.S.CreateOccurrence o1)
              (.ret (some o1) r4.1, r4.2)

/-- The loop of `BatchCreateNotes`, over the notes in the order in which this run's
`range in.Notes` yields them: `acc` is `resp.Notes` so far. -/
def batchNotesLoop (D : Deps) (g : Server σ) :
    List (Option Note) → List (Option Note) → World σ →
      Outcome BatchCreateNotesResponse × World σ
  | [], acc, w => (.ret (some { Notes := acc }) none, w)
  | n :: rest, acc, w =>
    match createNote D g n w with
    | (.panic, w1) => (.panic, w1)
    | (.ret note err, w1) =>
      if err ≠ none then (.ret none err, w1)
      else batchNotesLoop D g rest (acc ++ [note]) w1

/-- BatchCreateNotes validates that all notes are valid and then add them to the backing
datastore. `in.Notes` is a map: `len` counts its entries, and `visit` is the order in
which the `range` of this run yields them, a permutation of `req.Notes` that the request
does not determine. -/
def BatchCreateNotes (D : Deps) (g : Server σ) (req : Option BatchCreateNotesRequest)
    (visit : List (String × Option Note)) (w : World σ) :
    Outcome BatchCreateNotesResponse × World σ :=
  match req with
  | none => (.panic, w)
  | some req =>
    if req.Notes.length > maxBatch then
      (.ret none (statusError .InvalidArgument "Too many notes"), w)
    else
      batchNotesLoop D g (visit.map Prod.snd) [] w

/-- The loop of `BatchCreateOccurrences`: `acc` is `resp.Occurrences` so far. -/
def batchOccurrencesLoop (D : Deps) (g : Server σ) (parent : String) :
    List (Option Occurrence) → List (Option Occurrence) → World σ →
      Outcome BatchCreateOccurrencesResponse × World σ
  | [], acc, w => (.ret (some { Occurrences := acc }) none, w)
  | o :: rest, acc, w =>
    match createOccurrence D g o parent w with
    | (.panic, w1) => (.panic, w1)
    | (.ret occ err, w1) =>
      if err ≠ none then (.ret none err, w1)
      else batchOccurrencesLoop D g parent rest (acc ++ [occ]) w1

/-- BatchCreateOccurrences validates that all notes are valid and then creates an
associated occurrence per note in the backing datastore. -/
def BatchCreateOccurrences (D : Deps) (g : Server σ)
    (req : Option BatchCreateOccurrencesRequest) (w : World σ) :
    Outcome BatchCreateOccurrencesResponse × World σ :=
  match req with
  | none => (.panic, w)
  | some req =>
    if req.Occurrences.length > maxBatch then
      (.ret none (statusError .InvalidArgument "Too many occurrences"), w)
    else
      batchOccurrencesLoop D g req.Parent req.Occurrences [] w

/-- CreateProject validates that a project is valid and then creates a project in the
backing datastore. The first statement, `p := req.Project`, reads through `req`
before `req == nil` is tested. -/
def CreateProject (D : Deps) (g : Server σ) (req : Option CreateProjectRequest)
    (w : World σ) : Outcome Project × World σ :=
  match req with
  | none => (.panic, w)
  | some req =>
    let p := req.Project
    if (some req : Option CreateProjectRequest) = none then
      (.ret none (statusError .InvalidArgument "Project must not be empty"), w)
    else
      match p with
      | none => (.panic, w)
      | some p =>
        if p.Name = "" then
          (.ret none (statusError .InvalidArgument "Project name must not be empty"), w)
        else
          match D.ParseProject p.Name with
          | .error _ => (.ret none (statusError .InvalidArgument "Invalid project name"), w)
          | .ok pID =>
            let r := w.call (.CreateProject pID) (g.S.CreateProject pID)
            (.ret (some p) r.1, r.2)

/-- CreateNote validates that a note is valid and then creates a note in the backing
datastore. -/
def CreateNote (D : Deps) (g : Server σ) (req : Option CreateNoteRequest) (w : World σ) :
    Outcome Note × World σ :=
  match req with
  | none => (.panic, w)
  | some req => createNote D g req.Note w

/-- CreateOccurrence validates that a note is valid and then creates an occurrence in the
backing datastore. -/
def CreateOccurrence (D : Deps) (g : Server σ) (req : Option CreateOccurrenceRequest)
    (w : World σ) : Outcome Occurrence × World σ :=
  match req with
  | none => (.panic, w)
  | some req => createOccurrence D g req.Occurrence req.Parent w

/-- DeleteProject deletes a project from the datastore. -/
def DeleteProject (D : Deps) (g : Server σ) (req : Option NameRequest) (w : World σ) :
    Outcome Empty × World σ :=
  match req with
  | none => (.panic, w)
  | some req =>
    match D.ParseProject req.Name with
    | .error _ => (.ret none (statusError .InvalidArgument "Invalid Project name"), w)
    | .ok pID =>
      let r := w.call (.DeleteProject pID) (g.S.DeleteProject pID)
      (.ret (some {}) r.1, r.2)

/-- DeleteOccurrence deletes an occurrence from the datastore. -/
def DeleteOccurrence (D : Deps) (g : Server σ) (req : Option NameRequest) (w : World σ) :
    Outcome Empty × World σ :=
  match req with
  | none => (.panic, w)
  | some req =>
    match D.ParseOccurrence req.Name with
    | .error _ => (.ret none (statusError .InvalidArgument "Invalid occurrence name"), w)
    | .ok (pID, oID) =>
      let r := w.call (.DeleteOccurrence pID oID) (g.S.DeleteOccurrence pID oID)
      (.ret (some {}) r.1, r.2)

/-- DeleteNote deletes a note from the datastore. -/
def DeleteNote (D : Deps) (g : Server σ) (req : Option NameRequest) (w : World σ) :
    Outcome Empty × World σ :=
  match req with
  | none => (.panic, w)
  | some req =>
    match D.ParseNote req.Name with
    | .error _ => (.ret none (statusError .InvalidArgument "Invalid note name"), w)
    | .ok (pID, nID) =>
      let r := w.call (.DeleteNote pID nID) (g.S.DeleteNote pID nID)
      (.ret (some {}) r.1, r.2)

/-- GetProject gets a project from the datastore. -/
def GetProject (D : Deps) (g : Server σ) (req : Option NameRequest) (w : World σ) :
    Outcome Project × World σ :=
  match req with
  | none => (.panic, w)
  | some req =>
    match D.ParseProject req.Name with
    | .error _ => (.ret none (statusError .InvalidArgument "Invalid Project name"), w)
    | .ok pID =>
      let r := w.call (.GetProject pID) (g.S.GetProject pID)
      (.ret r.1.1 r.1.2, r.2)

/-- GetNote gets a note from the datastore. -/
def GetNote (D : Deps) (g : Server σ) (req : Option NameRequest) (w : World σ) :
    Outcome Note × World σ :=
  match req with
  | none => (.panic, w)
  | some req =>
    match D.ParseNote req.Name with
    | .error _ => (.ret none (statusError .InvalidArgument "Invalid Note name"), w)
    | .ok (pID, nID) =>
      let r := w.call (.GetNote pID nID) (g.S.GetNote pID nID)
      (.ret r.1.1 r.1.2, r.2)

/-- GetOccurrence gets a occurrence from the datastore. -/
def GetOccurrence (D : Deps) (g : Server σ) (req : Option NameRequest) (w : World σ) :
    Outcome Occurrence × World σ :=
  match req with
  | none => (.panic, w)
  | some req =>
    match D.ParseOccurrence req.Name with
    | .error _ => (.ret none (statusError .InvalidArgument "Could note parse name"), w)
    | .ok (pID, oID) =>
      let r := w.call (.GetOccurrence pID oID) (g.S.GetOccurrence pID oID)
      (.ret r.1.1 r.1.2, r.2)

/-- GetOccurrenceNote gets a the note for the provided occurrence from the datastore. -/
def GetOccurrenceNote (D : Deps) (g : Server σ) (req : Option NameRequest) (w : World σ) :
    Outcome Note × World σ :=
  match req with
  | none => (.panic, w)
  | some req =>
    match D.ParseOccurrence req.Name with
    | .error _ => (.ret none (statusError .InvalidArgument "Invalid occurrence name"), w)
    | .ok (pID, oID) =>
      let r1 := w.call (.GetOccurrence pID oID) (g.S.GetOccurrence pID oID)
      if r1.1.2 ≠ none then (.ret none r1.1.2, r1.2)
      else
        match r1.1.1 with
        | none => (.panic, r1.2)
        | some o =>
          match D.ParseNote o.NoteName with
          | .error _ =>
            (.ret none (statusError .InvalidArgument ("Invalid note name: " ++ o.NoteName)),
              r1.2)
          | .ok (npID, nID) =>
            let r2 := r1.2.call (.GetNote npID nID) (g.S.GetNote npID nID)
            (.ret r2.1.1 r2.1.2, r2.2)

/-- The handler `UpdateNote`. The variable `err` is the one bound by
`pID, nID, err := name.ParseNote(req.Name)`; it is `nil` once parsing has succeeded and
is never assigned again (`gErr` holds the storage errors). -/
def UpdateNote (D : Deps) (g : Server σ) (req : Option UpdateNoteRequest) (w : World σ) :
    Outcome Note × World σ :=
  match req with
  | none => (.panic, w)
  | some req =>
    match D.ParseNote req.Name with
    | .error _ => (.ret none (statusError .InvalidArgument "Invalid Note name"), w)
    | .ok (pID, nID) =>
      let err : Option Err := none
      -- get existing note
      let r1 := w.call (.GetNote pID nID) (g.S.GetNote pID nID)
      if r1.1.2 ≠ none then (.ret none err, r1.2)
      else
        -- verify that name didnt change
        match req.Note, r1.1.1 with
        | some n, some existing =>
          if n.Name ≠ existing.Name then
            (.ret none (statusError .InvalidArgument ("Cannot change note name: " ++ n.Name)),
              r1.2)
          else
            -- update note
            let r2 := r1.2.call (.UpdateNote pID nID n) (g.S.UpdateNote pID nID n)
            if err ≠ none then
              (.ret none (statusError .InvalidArgument ("Cannot change note name: " ++ n.Name)),
                r2.2)
            else
              let r3 := r2.2.call (.GetNote pID nID) (g.S.GetNote pID nID)
              (.ret r3.1.1 r3.1.2, r3.2)
        | _, _ => (.panic, r1.2)

/-- The handler `UpdateOccurrence`. The outer `err` is the one bound by
`name.ParseOccurrence`; the `err` of the note-name block are local to it. -/
def UpdateOccurrence (D : Deps) (g : Server σ) (req : Option UpdateOccurrenceRequest)
    (w : World σ) : Outcome Occurrence × World σ :=
  match req with
  | none => (.panic, w)
  | some req =>
    match D.ParseOccurrence req.Name with
    | .error _ => (.ret none (statusError .InvalidArgument "Invalid occurrence name"), w)
    | .ok (pID, oID) =>
      let err : Option Err := none
      -- get existing Occurrence
      let r1 := w.call (.GetOccurrence pID oID) (g.S.GetOccurrence pID oID)
      if r1.1.2 ≠ none then (.ret none r1.1.2, r1.2)
      else
        match r1.1.1 with
        | none => (.panic, r1.2)
        | some existing =>
          -- verify that name did not change
          if req.Name ≠ existing.Name then
            match req.Occurrence with
            | none => (.panic, r1.2)
            | some o =>
              (.ret none (statusError .InvalidArgument
                ("Cannot change occurrence name: " ++ o.Name)), r1.2)
          else
            match req.Occurrence with
            | none => (.panic, r1.2)
            | some o =>
              -- update Occurrence
              let update (w1 : World σ) : Outcome Occurrence × World σ :=
                let r3 := w1.call (.UpdateOccurrence pID oID o) (g.S.UpdateOccurrence pID oID o)
                if r3.1 ≠ none then
                  (.ret none (statusError .InvalidArgument
                    ("Cannot update Occurrences: " ++ fmtErr err)), r3.2)
                else
                  let r4 := r3.2.call (.GetOccurrence pID oID) (g.S.GetOccurrence pID oID)
                  (.ret r4.1.1 r4.1.2, r4.2)
              -- verify that if note name changed, it still exists
              if o.NoteName ≠ existing.NoteName then
                match D.ParseNote o.NoteName with
                | .error e => (.ret none (some e), r1.2)
                | .ok (npID, nID) =>
                  let r2 := r1.2.call (.GetNote npID nID) (g.S.GetNote npID nID)
                  if r2.1.1 = none ∨ r2.1.2 ≠ none then (.ret none r2.1.2, r2.2)
                  else update r2.2
              else update r1.2

/-- ListProjects returns the project id for all projects in the backing datastore.
In the list handlers the assignment `req.PageSize = 100` is only visible through the
page size handed to storage. -/
def ListProjects (_D : Deps) (g : Server σ) (req : Option ListProjectsRequest)
    (w : World σ) : Outcome ListProjectsResponse × World σ :=
  match req with
  | none => (.panic, w)
  | some req =>
    let pageSize : Int := if req.PageSize = 0 then 100 else req.PageSize
    let r := w.call (.ListProjects req.Filter pageSize req.PageToken)
      (g.S.ListProjects req.Filter pageSize req.PageToken)
    if r.1.2.2 ≠ none then
      (.ret none (statusError .Unknown "Failed to list projects"), r.2)
    else
      (.ret (some { Projects := r.1.1, NextPageToken := r.1.2.1 }) none, r.2)

def ListNotes (D : Deps) (g : Server σ) (req : Option ListRequest) (w : World σ) :
    Outcome ListNotesResponse × World σ :=
  match req with
  | none => (.panic, w)
  | some req =>
    match D.ParseProject req.Parent with
    | .error _ => (.ret none (statusError .InvalidArgument "Invalid Project name"), w)
    | .ok pID =>
      let pageSize : Int := if req.PageSize = 0 then 100 else req.PageSize
      let r := w.call (.ListNotes pID req.Filter pageSize req.PageToken)
        (g.S.ListNotes pID req.Filter pageSize req.PageToken)
      if r.1.2.2 ≠ none then
        (.ret none (statusError .Unknown "Failed to list notes"), r.2)
      else
        (.ret (some { Notes := r.1.1, NextPageToken := r.1.2.1 }) none, r.2)

def ListOccurrences (D : Deps) (g : Server σ) (req : Option ListRequest) (w : World σ) :
    Outcome ListOccurrencesResponse × World σ :=
  match req with
  | none => (.panic, w)
  | some req =>
    match D.ParseProject req.Parent with
    | .error e => (.ret none (some e), w)
    | .ok pID =>
      let pageSize : Int := if req.PageSize = 0 then 100 else req.PageSize
      let r := w.call (.ListOccurrences pID req.Filter pageSize req.PageToken)
        (g.S.ListOccurrences pID req.Filter pageSize req.PageToken)
      if r.1.2.2 ≠ none then
        (.ret none (statusError .Unknown "Failed to list occurrences"), r.2)
      else
        (.ret (some { Occurrences := r.1.1, NextPageToken := r.1.2.1 }) none, r.2)

def ListNoteOccurrences (D : Deps) (g : Server σ) (req : Option ListNoteOccurrencesRequest)
    (w : World σ) : Outcome ListOccurrencesResponse × World σ :=
  match req with
  | none => (.panic, w)
  | some req =>
    match D.ParseNote req.Name with
    | .error _ => (.ret none (statusError .InvalidArgument "Invalid note name"), w)
    | .ok (pID, nID) =>
      let pageSize : Int := if req.PageSize = 0 then 100 else req.PageSize
      let r := w.call (.ListNoteOccurrences pID nID req.Filter pageSize req.PageToken)
        (g.S.ListNoteOccurrences pID nID req.Filter pageSize req.PageToken)
      if r.1.2.2 ≠ none then
        (.ret none r.1.2.2, r.2)
      else
        (.ret (some { Occurrences := r.1.1, NextPageToken := r.1.2.1 }) none, r.2)

end Handlers

/-! ## Concrete collaborators

Instances of the parameters, used to run the handlers on explicit inputs. -/

/-- Split a name at every `/`. -/
def segments : List Char → List (List Char)
  | [] => [[]]
  | c :: cs =>
    if c = '/' then [] :: segments cs
    else
      match segments cs with
      | [] => [[c]]
      | seg :: segs => (c :: seg) :: segs

/-- The error of a name that does not have the expected shape. -/
def badName (s : String) : Err := Err.status Code.InvalidArgument ("invalid name: " ++ s)

/-- Modelled from the spec: the parser of project names of the `name` package, which is
not in the file. A name is `projects/{projectID}`; empty segments and any other shape
fail with `InvalidArgument`. -/
def parseProject (s : String) : Except Err String :=
  match segments s.data with
  | [k, p] =>
    if k = "projects".data ∧ p ≠ [] then .ok (String.mk p) else .error (badName s)
  | _ => .error (badName s)

/-- Modelled from the spec: the parser of `projects/{projectID}/{kind}/{leafID}`. -/
def parseLeaf (kind : String) (s : String) : Except Err (String × String) :=
  match segments s.data with
  | [k, p, k2, l] =>
    if k = "projects".data ∧ p ≠ [] ∧ k2 = kind.data ∧ l ≠ [] then
      .ok (String.mk p, String.mk l)
    else .error (badName s)
  | _ => .error (badName s)

/-- Modelled from the spec: the formatter `projects/{projectID}/notes/{noteID}`. -/
def noteName (pID nID : String) : String := "projects/" ++ pID ++ "/notes/" ++ nID

/-- Modelled from the spec: the formatter
`projects/{projectID}/occurrences/{occurrenceID}`. -/
def occurrenceName (pID oID : String) : String := "projects/" ++ pID ++ "/occurrences/" ++ oID

/-- The `name` package as the spec describes it, with an identifier source that
numbers its identifiers. -/
def stdDeps : Deps where
  ParseProject := parseProject
  ParseNote := parseLeaf "notes"
  ParseOccurrence := parseLeaf "occurrences"
  OccurrenceName := occurrenceName
  NewRandom := fun k => .ok ("id" ++ toString k)

/-- State of the in-memory storage: the project IDs, and the notes and occurrences
under the resource name they are stored at. -/
structure Mem where
  projects : List String
  notes : List (String × Note)
  occurrences : List (String × Occurrence)
  deriving DecidableEq, Repr

def notFound (what : String) : Option Err :=
  some (Err.status Code.NotFound (what ++ " not found"))

def alreadyExists (what : String) : Option Err :=
  some (Err.status Code.AlreadyExists (what ++ " already exists"))

/-- Store `v` at a key the list already holds. -/
def setAt {α : Type} (key : String) (v : α) (l : List (String × α)) : List (String × α) :=
  l.map fun kv => if kv.1 = key then (key, v) else kv

/-- The project ID of a resource name, when it is one of the given kind. -/
def projectOf (kind name : String) : Option String :=
  match parseLeaf kind name with
  | .ok (p, _) => some p
  | .error _ => none

/-- Modelled from the spec: a reference implementation of the storage port (the
repository's own storage is not in the file): maps from resource name to resource, which
hold what they are given. Lists return everything they hold under the project, without paging. -/
def memStore : Storager Mem where
  CreateProject := fun pID m =>
    if pID ∈ m.projects then (alreadyExists pID, m)
    else (none, { m with projects := m.projects ++ [pID] })
  GetProject := fun pID m =>
    if pID ∈ m.projects then ((some { Name := "projects/" ++ pID }, none), m)
    else ((none, notFound pID), m)
  DeleteProject := fun pID m =>
    if pID ∈ m.projects then (none, { m with projects := m.projects.filter (· ≠ pID) })
    else (notFound pID, m)
  ListProjects := fun _ _ _ m =>
    ((m.projects.map (fun p => some { Name := "projects/" ++ p }), "", none), m)
  CreateNote := fun n m =>
    if (m.notes.lookup n.Name).isSome then (alreadyExists n.Name, m)
    else (none, { m with notes := m.notes ++ [(n.Name, n)] })
  GetNote := fun pID nID m =>
    match m.notes.lookup (noteName pID nID) with
    | some n => ((some n, none), m)
    | none => ((none, notFound (noteName pID nID)), m)
  UpdateNote := fun pID nID n m =>
    if (m.notes.lookup (noteName pID nID)).isSome then
      (none, { m with notes := setAt (noteName pID nID) n m.notes })
    else (notFound (noteName pID nID), m)
  DeleteNote := fun pID nID m =>
    if (m.notes.lookup (noteName pID nID)).isSome then
      (none, { m with notes := m.notes.filter (·.1 ≠ noteName pID nID) })
    else (notFound (noteName pID nID), m)
  ListNotes := fun pID _ _ _ m =>
    (((m.notes.filter (fun kv => projectOf "notes" kv.1 = some pID)).map (some ·.2),
      "", none), m)
  CreateOccurrence := fun o m =>
    if (m.occurrences.lookup o.Name).isSome then (alreadyExists o.Name, m)
    else (none, { m with occurrences := m.occurrences ++ [(o.Name, o)] })
  GetOccurrence := fun pID oID m =>
    match m.occurrences.lookup (occurrenceName pID oID) with
    | some o => ((some o, none), m)
    | none => ((none, notFound (occurrenceName pID oID)), m)
  UpdateOccurrence := fun pID oID o m =>
    if (m.occurrences.lookup (occurrenceName pID oID)).isSome then
      (none, { m with occurrences := setAt (occurrenceName pID oID) o m.occurrences })
    else (notFound (occurrenceName pID oID), m)
  DeleteOccurrence := fun pID oID m =>
    if (m.occurrences.lookup (occurrenceName pID oID)).isSome then
      (none, { m with occurrences := m.occurrences.filter (·.1 ≠ occurrenceName pID oID) })
    else (notFound (occurrenceName pID oID), m)
  ListOccurrences := fun pID _ _ _ m =>
    (((m.occurrences.filter (fun kv => projectOf "occurrences" kv.1 = some pID)).map
      (some ·.2), "", none), m)
  ListNoteOccurrences := fun pID nID _ _ _ m =>
    (((m.occurrences.filter (fun kv => kv.2.NoteName = noteName pID nID)).map (some ·.2),
      "", none), m)

/-- The error of a backend that cannot be written to. -/
def unavailable : Err := Err.status Code.Unavailable "backend unavailable"

/-- The in-memory storage behind a backend that serves reads and refuses updates. -/
def readOnlyStore : Storager Mem :=
  { memStore with
    UpdateNote := fun _ _ _ m => (some unavailable, m)
    UpdateOccurrence := fun _ _ _ m => (some unavailable, m) }

/-- The in-memory storage with a `GetNote` that reports an absent note as a nil note
and a nil error. -/
def lenientStore : Storager Mem :=
  { memStore with
    GetNote := fun pID nID m => ((m.notes.lookup (noteName pID nID), none), m) }

/-- A storage every operation of which fails with `e`. -/
def failingStore (e : Err) : Storager Unit where
  CreateProject := fun _ s => (some e, s)
  GetProject := fun _ s => ((none, some e), s)
  DeleteProject := fun _ s => (some e, s)
  ListProjects := fun _ _ _ s => (([], "", some e), s)
  CreateNote := fun _ s => (some e, s)
  GetNote := fun _ _ s => ((none, some e), s)
  UpdateNote := fun _ _ _ s => (some e, s)
  DeleteNote := fun _ _ s => (some e, s)
  ListNotes := fun _ _ _ _ s => (([], "", some e), s)
  CreateOccurrence := fun _ s => (some e, s)
  GetOccurrence := fun _ _ s => ((none, some e), s)
  UpdateOccurrence := fun _ _ _ s => (some e, s)
  DeleteOccurrence := fun _ _ s => (some e, s)
  ListOccurrences := fun _ _ _ _ s => (([], "", some e), s)
  ListNoteOccurrences := fun _ _ _ _ _ s => (([], "", some e), s)

/-- A world in which nothing has been called yet. -/
def World.fresh {σ : Type} (s : σ) : World σ := { store := s, trace := [], drawn := 0 }

/-! ### Sample resources -/

def noteN1 : Note :=
  { Name := "projects/p1/notes/n1", ShortDescription := "CVE", LongDescription := "" }

def noteN2 : Note :=
  { Name := "projects/p1/notes/n2", ShortDescription := "build", LongDescription := "" }

def occO1 : Occurrence :=
  { Name := "projects/p1/occurrences/o1", NoteName := "projects/p1/notes/n1",
    Remediation := "" }

/-- Project `p1` holding note `n1` and occurrence `o1` of that note. -/
def mem1 : Mem :=
  { projects := ["p1"], notes := [(noteN1.Name, noteN1)],
    occurrences := [(occO1.Name, occO1)] }

/-- Storage that holds nothing. -/
def mem0 : Mem := { projects := [], notes := [], occurrences := [] }

def noteN3 : Note :=
  { Name := "projects/p1/notes/n3", ShortDescription := "attestation", LongDescription := "" }

/-- The world reached from `World.fresh mem1` by creating `noteN2` and then `noteN3`. -/
def worldNotes : World Mem :=
  { store := { mem1 with notes := [(noteN1.Name, noteN1), (noteN2.Name, noteN2),
      (noteN3.Name, noteN3)] },
    trace := [.GetProject "p1", .CreateNote noteN2, .GetProject "p1", .CreateNote noteN3],
    drawn := 0 }

def occId0 : Occurrence := { occO1 with Name := "projects/p1/occurrences/id0" }

def occId1 : Occurrence :=
  { Name := "projects/p1/occurrences/id1", NoteName := "projects/p1/notes/n1",
    Remediation := "upgrade" }

/-- The world reached from `World.fresh mem1` by creating two occurrences of `n1` under
`projects/p1`. -/
def worldOccurrences : World Mem :=
  { store := { mem1 with occurrences := [(occO1.Name, occO1), (occId0.Name, occId0),
      (occId1.Name, occId1)] },
    trace := [.GetNote "p1" "n1", .GetProject "p1", .CreateOccurrence occId0,
              .GetNote "p1" "n1", .GetProject "p1", .CreateOccurrence occId1],
    drawn := 2 }

/-! ## Per-item runs of a batch

What the batch handlers are compared with: the items created one after the other in the
order in which they are visited, each in the world the previous one left, as long as
every creation returns a nil error. -/

/-- The notes returned by `createNote` for each visited item in turn and the world reached;
`none` as soon as one creation does not return a nil error. -/
def notesCreated {σ : Type} (D : Deps) (g : Server σ) :
    List (Option Note) → World σ → Option (List (Option Note) × World σ)
  | [], w => some ([], w)
  | n :: rest, w =>
    match createNote D g n w with
    | (.panic, _) => none
    | (.ret _ (some _), _) => none
    | (.ret note none, w1) =>
      match notesCreated D g rest w1 with
      | none => none
      | some (created, w2) => some (note :: created, w2)

/-- The occurrences returned by `createOccurrence` for each item in turn and the world
reached; `none` as soon as one creation does not return a nil error. -/
def occurrencesCreated {σ : Type} (D : Deps) (g : Server σ) (parent : String) :
    List (Option Occurrence) → World σ → Option (List (Option Occurrence) × World σ)
  | [], w => some ([], w)
  | o :: rest, w =>
    match createOccurrence D g o parent w with
    | (.panic, _) => none
    | (.ret _ (some _), _) => none
    | (.ret occ none, w1) =>
      match occurrencesCreated D g parent rest w1 with
      | none => none
      | some (created, w2) => some (occ :: created, w2)

/-- The world reached from `World.fresh mem1` by creating `noteN2`. -/
def worldAfterN2 : World Mem :=
  { store := { mem1 with notes := [(noteN1.Name, noteN1), (noteN2.Name, noteN2)] },
    trace := [.GetProject "p1", .CreateNote noteN2],
    drawn := 0 }

/-- The world reached from `worldAfterN2` by the refused creation of `noteN1`, which the
storage already holds. -/
def worldAfterN2N1 : World Mem :=
  { worldAfterN2 with
    trace := [.GetProject "p1", .CreateNote noteN2, .GetProject "p1", .CreateNote noteN1] }

/-- An occurrence of a note the storage does not hold. -/
def occDangling : Occurrence :=
  { Name := "", NoteName := "projects/p1/notes/missing", Remediation := "" }

/-- The world reached from `World.fresh mem1` by creating an occurrence of `n1` under
`projects/p1`. -/
def worldAfterId0 : World Mem :=
  { store := { mem1 with occurrences := [(occO1.Name, occO1), (occId0.Name, occId0)] },
    trace := [.GetNote "p1" "n1", .GetProject "p1", .CreateOccurrence occId0],
    drawn := 1 }

/-- The world reached from `worldAfterId0` by the refused creation of `occDangling`. -/
def worldAfterId0Dangling : World Mem :=
  { worldAfterId0 with
    trace := [.GetNote "p1" "n1", .GetProject "p1", .CreateOccurrence occId0,
              .GetNote "p1" "missing"] }

/-- A batch of the two notes `n2` and `n3`, neither of which `mem1` holds. -/
def batchN2N3 : BatchCreateNotesRequest :=
  { Notes := [("n2", some noteN2), ("n3", some noteN3)] }

/-- A batch of the three notes `n1`, `n2` and `n3`, the first of which `mem1` holds. -/
def batchN1N2N3 : BatchCreateNotesRequest :=
  { Notes := [("n1", some noteN1), ("n2", some noteN2), ("n3", some noteN3)] }

/-- A batch of 1001 absent notes under the keys `0`, ..., `1000`. -/
def batch1001 : BatchCreateNotesRequest :=
  { Notes := (List.range 1001).map fun k => (toString k, none) }

/-- The collaborators of `stdDeps` with an identifier source that always fails. -/
def noEntropyDeps : Deps :=
  { stdDeps with NewRandom := fun _ => .error (Err.plain "no entropy") }

/-! ## Reading traces and stores -/

/-- The note of a storage `CreateNote` call. -/
def Call.noteCreated : Call → Option Note
  | .CreateNote n => some n
  | _ => none

/-- The occurrence of a storage `CreateOccurrence` call. -/
def Call.occurrenceCreated : Call → Option Occurrence
  | .CreateOccurrence o => some o
  | _ => none

/-- A storage call that only reads or creates: it removes and overwrites nothing. -/
def Call.readsOrCreates : Call → Bool
  | .GetProject _ => true
  | .GetNote _ _ => true
  | .GetOccurrence _ _ => true
  | .CreateProject _ => true
  | .CreateNote _ => true
  | .CreateOccurrence _ => true
  | _ => false

/-- Whether the in-memory storage holds, for an occurrence, the note its `NoteName`
names. -/
def noteResolves (m : Mem) (o : Occurrence) : Bool :=
  match parseLeaf "notes" o.NoteName with
  | .ok (pID, nID) => (m.notes.lookup (noteName pID nID)).isSome
  | .error _ => false

/-- Invariant 1 of the data model on the in-memory storage: every stored occurrence's
`NoteName` resolves to a note that exists in storage. -/
def refsResolve (m : Mem) : Bool :=
  m.occurrences.all fun kv => noteResolves m kv.2

/-! ## Theorems -/

/-- C1 (code evaluated at the failing input). Storage holds nothing, so the storage
`GetNote` for `projects/p1/notes/n1` fails with a `NotFound` error; `UpdateNote` on that
name returns a nil note together with a nil error, after that single storage call. -/
theorem UpdateNote_drops_GetNote_error :
    (memStore.GetNote "p1" "n1" mem0).1 = (none, notFound "projects/p1/notes/n1") ∧
    UpdateNote stdDeps ⟨memStore⟩
        (some { Name := "projects/p1/notes/n1", Note := some noteN1 }) (World.fresh mem0) =
      (.ret none none, { store := mem0, trace := [.GetNote "p1" "n1"], drawn := 0 }) := by
  decide

/-- C2 (code evaluated at the failing input). Storage holds note `n1` and refuses
updates; `UpdateNote` with an unchanged name calls storage `UpdateNote`, which fails with
`Unavailable`, and then returns the re-read, unmodified note with a nil error. -/
theorem UpdateNote_reports_failed_update_as_success :
    (readOnlyStore.UpdateNote "p1" "n1" { noteN1 with ShortDescription := "fixed" } mem1).1 =
      some unavailable ∧
    UpdateNote stdDeps ⟨readOnlyStore⟩
        (some { Name := "projects/p1/notes/n1",
                Note := some { noteN1 with ShortDescription := "fixed" } })
        (World.fresh mem1) =
      (.ret (some noteN1) none,
        { store := mem1,
          trace := [.GetNote "p1" "n1",
                    .UpdateNote "p1" "n1" { noteN1 with ShortDescription := "fixed" },
                    .GetNote "p1" "n1"],
          drawn := 0 }) := by
  decide

/-- C3 (code evaluated at the failing input). The stored occurrence is named
`projects/p1/occurrences/o1`; a request whose name field is that name and whose payload
is named `projects/p1/occurrences/other` is not rejected: the payload goes to storage
`UpdateOccurrence` and the occurrence read back under `o1` carries the other name. -/
theorem UpdateOccurrence_payload_name_unchecked :
    (memStore.GetOccurrence "p1" "o1" mem1).1 = (some occO1, none) ∧
    (UpdateOccurrence stdDeps ⟨memStore⟩
        (some { Name := "projects/p1/occurrences/o1",
                Occurrence := some { occO1 with Name := "projects/p1/occurrences/other" } })
        (World.fresh mem1)).1 =
      .ret (some { occO1 with Name := "projects/p1/occurrences/other" }) none ∧
    (UpdateOccurrence stdDeps ⟨memStore⟩
        (some { Name := "projects/p1/occurrences/o1",
                Occurrence := some { occO1 with Name := "projects/p1/occurrences/other" } })
        (World.fresh mem1)).2.trace =
      [.GetOccurrence "p1" "o1",
       .UpdateOccurrence "p1" "o1" { occO1 with Name := "projects/p1/occurrences/other" },
       .GetOccurrence "p1" "o1"] := by
  decide

/-- C4. When the request name parses, storage `GetNote` finds the existing note, and the
note of the request has another name than the existing one, `UpdateNote` returns no note
and an `InvalidArgument` error, whatever the other fields are; the only storage call it
has made is that `GetNote`, so storage `UpdateNote` is not called. -/
theorem UpdateNote_rename_rejected {σ : Type} (D : Deps) (g : Server σ)
    (req : UpdateNoteRequest) (n existing : Note) (pID nID : String) (w : World σ)
    (hparse : D.ParseNote req.Name = .ok (pID, nID))
    (hget : (g.S.GetNote pID nID w.store).1 = (some existing, none))
    (hnote : req.Note = some n)
    (hne : n.Name ≠ existing.Name) :
    (∃ e, (UpdateNote D g (some req) w).1 = .ret none (some e) ∧
      e.kind = Code.InvalidArgument) ∧
    (UpdateNote D g (some req) w).2.trace = w.trace ++ [.GetNote pID nID] ∧
    (∀ p i m, Call.UpdateNote p i m ∈ (UpdateNote D g (some req) w).2.trace →
      Call.UpdateNote p i m ∈ w.trace) ∧
    (UpdateNote D g (some req) w).2.store = (g.S.GetNote pID nID w.store).2 := by
  have hrun : UpdateNote D g (some req) w =
      (.ret none (statusError .InvalidArgument ("Cannot change note name: " ++ n.Name)),
        (w.call (.GetNote pID nID) (g.S.GetNote pID nID)).2) := by
    simp [UpdateNote, hparse, World.call, hget, hnote, hne]
  rw [hrun]
  refine ⟨⟨_, rfl, rfl⟩, rfl, ?_, rfl⟩
  intro p i m hm
  simpa [World.call] using hm

/-- Witness of C4: renaming `n1` to `n2` in the in-memory storage. -/
theorem UpdateNote_rename_rejected_witness :
    stdDeps.ParseNote "projects/p1/notes/n1" = .ok ("p1", "n1") ∧
    (memStore.GetNote "p1" "n1" mem1).1 = (some noteN1, none) ∧
    noteN2.Name ≠ noteN1.Name ∧
    (∃ e, (UpdateNote stdDeps ⟨memStore⟩
        (some { Name := "projects/p1/notes/n1", Note := some noteN2 })
        (World.fresh mem1)).1 = .ret none (some e) ∧ e.kind = Code.InvalidArgument) ∧
    (UpdateNote stdDeps ⟨memStore⟩
        (some { Name := "projects/p1/notes/n1", Note := some noteN2 })
        (World.fresh mem1)).2.trace = [] ++ [.GetNote "p1" "n1"] :=
  have h := UpdateNote_rename_rejected stdDeps ⟨memStore⟩
    { Name := "projects/p1/notes/n1", Note := some noteN2 } noteN2 noteN1 "p1" "n1"
    (World.fresh mem1) (by rfl) (by decide) rfl (by decide)
  ⟨by rfl, by decide, by decide, h.1, h.2.1⟩

/-- C5 (code evaluated at the failing input). The stored occurrence `o1` refers to note
`n1`; the request changes the reference to `projects/p1/notes/missing`, for which
storage `GetNote` returns no note and no error; `UpdateOccurrence` returns a nil
occurrence together with a nil error. -/
theorem UpdateOccurrence_missing_note_nil_error :
    (lenientStore.GetNote "p1" "missing" mem1).1 = (none, none) ∧
    UpdateOccurrence stdDeps ⟨lenientStore⟩
        (some { Name := "projects/p1/occurrences/o1",
                Occurrence := some { occO1 with NoteName := "projects/p1/notes/missing" } })
        (World.fresh mem1) =
      (.ret none none,
        { store := mem1, trace := [.GetOccurrence "p1" "o1", .GetNote "p1" "missing"],
          drawn := 0 }) := by
  decide

/-- C6 (counterexample). Storage refuses the update with an `Unavailable` error `e`;
`UpdateOccurrence`, all validation passed, does not return `e`: it returns an error of
kind `InvalidArgument`. -/
theorem UpdateOccurrence_storage_error_replaced :
    (readOnlyStore.UpdateOccurrence "p1" "o1" { occO1 with Remediation := "patch" } mem1).1 =
      some unavailable ∧
    (UpdateOccurrence stdDeps ⟨readOnlyStore⟩
        (some { Name := "projects/p1/occurrences/o1",
                Occurrence := some { occO1 with Remediation := "patch" } })
        (World.fresh mem1)).1 ≠ .ret none (some unavailable) ∧
    ∃ e, (UpdateOccurrence stdDeps ⟨readOnlyStore⟩
        (some { Name := "projects/p1/occurrences/o1",
                Occurrence := some { occO1 with Remediation := "patch" } })
        (World.fresh mem1)).1 = .ret none (some e) ∧
      e.kind = Code.InvalidArgument ∧ e.kind ≠ unavailable.kind := by
  exact ⟨by decide, by decide,
    Err.status Code.InvalidArgument "Cannot update Occurrences: <nil>",
    by decide, by decide, by decide⟩

/-- C6 (amended). For a request that passes all validation (the name parses, the stored
occurrence is found and has the request's name, the payload is present, and its note
name is either unchanged or parses and is found by storage `GetNote`): if the storage
`UpdateOccurrence` call, made on the storage state reached, fails with an error `e`, then
`UpdateOccurrence` returns no occurrence and a fresh `InvalidArgument` error. -/
theorem UpdateOccurrence_storage_error_is_InvalidArgument {σ : Type} (D : Deps)
    (g : Server σ) (req : UpdateOccurrenceRequest) (o existing : Occurrence)
    (pID oID : String) (e : Err) (w : World σ)
    (hparse : D.ParseOccurrence req.Name = .ok (pID, oID))
    (hget : (g.S.GetOccurrence pID oID w.store).1 = (some existing, none))
    (hname : req.Name = existing.Name)
    (hocc : req.Occurrence = some o)
    (hupd :
      (o.NoteName = existing.NoteName ∧
        (g.S.UpdateOccurrence pID oID o (g.S.GetOccurrence pID oID w.store).2).1 = some e) ∨
      (o.NoteName ≠ existing.NoteName ∧ ∃ npID nID newN,
        D.ParseNote o.NoteName = .ok (npID, nID) ∧
        (g.S.GetNote npID nID (g.S.GetOccurrence pID oID w.store).2).1 = (some newN, none) ∧
        (g.S.UpdateOccurrence pID oID o
          (g.S.GetNote npID nID (g.S.GetOccurrence pID oID w.store).2).2).1 = some e)) :
    ∃ e1, (UpdateOccurrence D g (some req) w).1 = .ret none (some e1) ∧
      e1.kind = Code.InvalidArgument := by
  have hrun : (UpdateOccurrence D g (some req) w).1 =
      .ret none (some (Err.status Code.InvalidArgument "Cannot update Occurrences: <nil>")) := by
    have hparse1 : D.ParseOccurrence existing.Name = .ok (pID, oID) := hname ▸ hparse
    rcases hupd with ⟨hsame, hfail⟩ | ⟨hdiff, npID, nID, newN, hp, hg, hfail⟩
    · simp [UpdateOccurrence, hparse1, World.call, hget, hname, hocc, hsame, hfail, fmtErr,
        statusError]
    · simp [UpdateOccurrence, hparse1, World.call, hget, hname, hocc, hdiff, hp, hg, hfail,
        fmtErr, statusError]
  exact ⟨_, hrun, rfl⟩

/-- Witness of C6 (amended): the read-only backend, note reference unchanged. -/
theorem UpdateOccurrence_storage_error_is_InvalidArgument_witness :
    (readOnlyStore.UpdateOccurrence "p1" "o1" { occO1 with Remediation := "patch" }
      (readOnlyStore.GetOccurrence "p1" "o1" mem1).2).1 = some unavailable ∧
    ∃ e1, (UpdateOccurrence stdDeps ⟨readOnlyStore⟩
        (some { Name := "projects/p1/occurrences/o1",
                Occurrence := some { occO1 with Remediation := "patch" } })
        (World.fresh mem1)).1 = .ret none (some e1) ∧ e1.kind = Code.InvalidArgument :=
  ⟨by decide,
   UpdateOccurrence_storage_error_is_InvalidArgument stdDeps ⟨readOnlyStore⟩
    { Name := "projects/p1/occurrences/o1",
      Occurrence := some { occO1 with Remediation := "patch" } }
    { occO1 with Remediation := "patch" } occO1 "p1" "o1" unavailable (World.fresh mem1)
    (by rfl) (by decide) (by decide) rfl (Or.inl ⟨by decide, by decide⟩)⟩

/-- C7 (counterexample). The parent `p1` is not a project name and the occurrence's note
name is well-formed; on a storage that holds nothing `CreateOccurrence` calls storage
`GetNote` and fails with `NotFound`, not with `InvalidArgument`. -/
theorem CreateOccurrence_bad_parent_touches_storage :
    (∃ e, stdDeps.ParseProject "p1" = .error e) ∧
    stdDeps.ParseNote occO1.NoteName = .ok ("p1", "n1") ∧
    CreateOccurrence stdDeps ⟨memStore⟩ (some { Parent := "p1", Occurrence := some occO1 })
        (World.fresh mem0) =
      (.ret none (some (Err.status Code.NotFound "note projects/p1/notes/n1 not found")),
        { store := mem0, trace := [.GetNote "p1" "n1"], drawn := 0 }) ∧
    (CreateOccurrence stdDeps ⟨memStore⟩ (some { Parent := "p1", Occurrence := some occO1 })
        (World.fresh mem0)).2.trace ≠ (World.fresh mem0).trace :=
  ⟨⟨_, rfl⟩, by rfl, by decide, by decide⟩

/-- C7 (amended). For a `CreateOccurrence` request whose parent does not parse:
the operation returns no occurrence and an error of kind `InvalidArgument` or `NotFound`;
it makes no storage call, or exactly one, a `GetNote` (never `GetProject` nor
`CreateOccurrence`); when the payload is present and its note name parses, that one call
is the `GetNote` of the parsed note name, and the error is `InvalidArgument` if it finds
the note and `NotFound` if it returns no note or an error; when the payload is absent or
its note name does not parse, the error is `InvalidArgument` and the world is unchanged. -/
theorem CreateOccurrence_unparsable_parent {σ : Type} (D : Deps) (g : Server σ)
    (req : CreateOccurrenceRequest) (e : Err) (w : World σ)
    (hparent : D.ParseProject req.Parent = .error e) :
    (∃ err, (CreateOccurrence D g (some req) w).1 = .ret none (some err) ∧
      (err.kind = Code.InvalidArgument ∨ err.kind = Code.NotFound)) ∧
    ((CreateOccurrence D g (some req) w).2.trace = w.trace ∨
      ∃ npID nID, (CreateOccurrence D g (some req) w).2.trace =
        w.trace ++ [.GetNote npID nID]) ∧
    (∀ o npID nID, req.Occurrence = some o → D.ParseNote o.NoteName = .ok (npID, nID) →
      (CreateOccurrence D g (some req) w).2 =
        (w.call (.GetNote npID nID) (g.S.GetNote npID nID)).2 ∧
      (∀ n, (g.S.GetNote npID nID w.store).1 = (some n, none) →
        ∃ err, (CreateOccurrence D g (some req) w).1 = .ret none (some err) ∧
          err.kind = Code.InvalidArgument) ∧
      ((g.S.GetNote npID nID w.store).1.1 = none ∨ (g.S.GetNote npID nID w.store).1.2 ≠ none →
        ∃ err, (CreateOccurrence D g (some req) w).1 = .ret none (some err) ∧
          err.kind = Code.NotFound)) ∧
    (req.Occurrence = none ∨
        (∃ o e1, req.Occurrence = some o ∧ D.ParseNote o.NoteName = .error e1) →
      ∃ err, CreateOccurrence D g (some req) w = (.ret none (some err), w) ∧
        err.kind = Code.InvalidArgument) := by
  cases hocc : req.Occurrence with
  | none =>
    have hrun : CreateOccurrence D g (some req) w =
        (.ret none (statusError .InvalidArgument "occurrence must not be empty"), w) := by
      simp [CreateOccurrence, createOccurrence, hocc]
    rw [hrun]
    refine ⟨⟨_, rfl, Or.inl rfl⟩, Or.inl rfl, ?_, fun _ => ⟨_, rfl, rfl⟩⟩
    intro o1 p1 n1 ho1
    cases ho1
  | some o =>
    cases hnote : D.ParseNote o.NoteName with
    | error e1 =>
      have hrun : CreateOccurrence D g (some req) w =
          (.ret none (statusError .InvalidArgument "invalid note name"), w) := by
        simp [CreateOccurrence, createOccurrence, hocc, hnote]
      rw [hrun]
      refine ⟨⟨_, rfl, Or.inl rfl⟩, Or.inl rfl, ?_, fun _ => ⟨_, rfl, rfl⟩⟩
      intro o1 p1 n1 ho1 hp1
      cases ho1
      rw [hnote] at hp1
      cases hp1
    | ok ids =>
      obtain ⟨npID, nID⟩ := ids
      have hlast : ¬ (some o = none ∨
          ∃ o1 e1, some o = some o1 ∧ D.ParseNote o1.NoteName = .error e1) := by
        rintro (h | ⟨o1, e1, ho1, he1⟩)
        · cases h
        · cases ho1
          rw [hnote] at he1
          cases he1
      by_cases hfound : (g.S.GetNote npID nID w.store).1.1 = none ∨
          (g.S.GetNote npID nID w.store).1.2 ≠ none
      · have hrun : CreateOccurrence D g (some req) w =
            (.ret none (statusError .NotFound ("note " ++ o.NoteName ++ " not found")),
              (w.call (.GetNote npID nID) (g.S.GetNote npID nID)).2) := by
          simp only [CreateOccurrence, createOccurrence, hocc, hnote]
          rw [if_pos (by simpa [World.call] using hfound)]
        rw [hrun]
        refine ⟨⟨_, rfl, Or.inr rfl⟩, Or.inr ⟨npID, nID, rfl⟩, ?_, fun h => absurd h hlast⟩
        intro o1 p1 n1 ho1 hp1
        cases ho1
        rw [hnote] at hp1
        cases hp1
        refine ⟨rfl, ?_, fun _ => ⟨_, rfl, rfl⟩⟩
        intro n hn
        rw [hn] at hfound
        simp at hfound
      · have hrun : CreateOccurrence D g (some req) w =
            (.ret none (statusError .InvalidArgument "invalid project name"),
              (w.call (.GetNote npID nID) (g.S.GetNote npID nID)).2) := by
          simp only [CreateOccurrence, createOccurrence, hocc, hnote]
          rw [if_neg (by simpa [World.call] using hfound)]
          simp [hparent]
        rw [hrun]
        refine ⟨⟨_, rfl, Or.inl rfl⟩, Or.inr ⟨npID, nID, rfl⟩, ?_, fun h => absurd h hlast⟩
        intro o1 p1 n1 ho1 hp1
        cases ho1
        rw [hnote] at hp1
        cases hp1
        exact ⟨rfl, fun _ _ => ⟨_, rfl, rfl⟩, fun h => absurd h hfound⟩

/-- Witness of C7 (amended): parent `p1`, the occurrence's note held by the storage. -/
theorem CreateOccurrence_unparsable_parent_witness :
    stdDeps.ParseProject "p1" = .error (badName "p1") ∧
    ∃ err, (CreateOccurrence stdDeps ⟨memStore⟩
        (some { Parent := "p1", Occurrence := some occO1 }) (World.fresh mem1)).1 =
        .ret none (some err) ∧ err.kind = Code.InvalidArgument :=
  ⟨by rfl,
   ((CreateOccurrence_unparsable_parent stdDeps ⟨memStore⟩
      { Parent := "p1", Occurrence := some occO1 } (badName "p1") (World.fresh mem1)
      (by rfl)).2.2.1 occO1 "p1" "n1" rfl (by rfl)).2.1 noteN1 (by decide)⟩

/-- C8 (code evaluated at the failing inputs). `CreateProject` on a nil request, and on a
request whose project payload is nil, ends in a nil-pointer dereference instead of
returning an error; this holds whatever the collaborators and the world are. -/
theorem CreateProject_nil_panics {σ : Type} (D : Deps) (g : Server σ) (w : World σ) :
    CreateProject D g none w = (.panic, w) ∧
    CreateProject D g (some { Project := none }) w = (.panic, w) := by
  simp [CreateProject]

/-- C9 (counterexample). The storage `ListNoteOccurrences` call fails with an error of
kind `Unavailable`; the handler `ListNoteOccurrences` returns that very error, whose kind
is not `Unknown`. -/
theorem ListNoteOccurrences_error_not_Unknown :
    stdDeps.ParseNote "projects/p1/notes/n1" = .ok ("p1", "n1") ∧
    ((failingStore unavailable).ListNoteOccurrences "p1" "n1" "" 100 "" ()).1.2.2 =
      some unavailable ∧
    (ListNoteOccurrences stdDeps ⟨failingStore unavailable⟩
        (some { Name := "projects/p1/notes/n1", Filter := "", PageSize := 0, PageToken := "" })
        (World.fresh ())).1 = .ret none (some unavailable) ∧
    unavailable.kind ≠ Code.Unknown :=
  ⟨by rfl, by decide, by decide, by decide⟩

/-- C9 (amended). When the parent or name parses and the storage list call returns an
error: `ListProjects`, `ListNotes` and `ListOccurrences` return no response and an error
of kind `Unknown`; `ListNoteOccurrences` returns no response and the storage error itself,
whatever its kind. -/
theorem list_storage_error {σ : Type} (D : Deps) (g : Server σ) (w : World σ) :
    (∀ (req : ListProjectsRequest) (e : Err),
      (g.S.ListProjects req.Filter (if req.PageSize = 0 then 100 else req.PageSize)
        req.PageToken w.store).1.2.2 = some e →
      ∃ err, (ListProjects D g (some req) w).1 = .ret none (some err) ∧
        err.kind = Code.Unknown) ∧
    (∀ (req : ListRequest) (pID : String) (e : Err),
      D.ParseProject req.Parent = .ok pID →
      (g.S.ListNotes pID req.Filter (if req.PageSize = 0 then 100 else req.PageSize)
        req.PageToken w.store).1.2.2 = some e →
      ∃ err, (ListNotes D g (some req) w).1 = .ret none (some err) ∧
        err.kind = Code.Unknown) ∧
    (∀ (req : ListRequest) (pID : String) (e : Err),
      D.ParseProject req.Parent = .ok pID →
      (g.S.ListOccurrences pID req.Filter (if req.PageSize = 0 then 100 else req.PageSize)
        req.PageToken w.store).1.2.2 = some e →
      ∃ err, (ListOccurrences D g (some req) w).1 = .ret none (some err) ∧
        err.kind = Code.Unknown) ∧
    (∀ (req : ListNoteOccurrencesRequest) (pID nID : String) (e : Err),
      D.ParseNote req.Name = .ok (pID, nID) →
      (g.S.ListNoteOccurrences pID nID req.Filter
        (if req.PageSize = 0 then 100 else req.PageSize) req.PageToken w.store).1.2.2 = some e →
      (ListNoteOccurrences D g (some req) w).1 = .ret none (some e)) := by
  refine ⟨?_, ?_, ?_, ?_⟩
  · intro req e he
    exact ⟨Err.status Code.Unknown "Failed to list projects",
      by simp [ListProjects, World.call, he, statusError], rfl⟩
  · intro req pID e hp he
    exact ⟨Err.status Code.Unknown "Failed to list notes",
      by simp [ListNotes, hp, World.call, he, statusError], rfl⟩
  · intro req pID e hp he
    exact ⟨Err.status Code.Unknown "Failed to list occurrences",
      by simp [ListOccurrences, hp, World.call, he, statusError], rfl⟩
  · intro req pID nID e hp he
    simp [ListNoteOccurrences, hp, World.call, he]

/-- Witness of C9 (amended): the four list handlers over a storage that fails with
`Unavailable`. -/
theorem list_storage_error_witness :
    (∃ err, (ListProjects stdDeps ⟨failingStore unavailable⟩
        (some { Filter := "", PageSize := 0, PageToken := "" }) (World.fresh ())).1 =
        .ret none (some err) ∧ err.kind = Code.Unknown) ∧
    (∃ err, (ListNotes stdDeps ⟨failingStore unavailable⟩
        (some { Parent := "projects/p1", Filter := "", PageSize := 20, PageToken := "" })
        (World.fresh ())).1 = .ret none (some err) ∧ err.kind = Code.Unknown) ∧
    (∃ err, (ListOccurrences stdDeps ⟨failingStore unavailable⟩
        (some { Parent := "projects/p1", Filter := "", PageSize := 20, PageToken := "" })
        (World.fresh ())).1 = .ret none (some err) ∧ err.kind = Code.Unknown) ∧
    (ListNoteOccurrences stdDeps ⟨failingStore unavailable⟩
        (some { Name := "projects/p1/notes/n1", Filter := "", PageSize := 0, PageToken := "" })
        (World.fresh ())).1 = .ret none (some unavailable) :=
  have h := list_storage_error stdDeps ⟨failingStore unavailable⟩ (World.fresh ())
  ⟨h.1 { Filter := "", PageSize := 0, PageToken := "" } unavailable (by decide),
   h.2.1 { Parent := "projects/p1", Filter := "", PageSize := 20, PageToken := "" } "p1"
     unavailable (by rfl) (by decide),
   h.2.2.1 { Parent := "projects/p1", Filter := "", PageSize := 20, PageToken := "" } "p1"
     unavailable (by rfl) (by decide),
   h.2.2.2 { Name := "projects/p1/notes/n1", Filter := "", PageSize := 0, PageToken := "" }
     "p1" "n1" unavailable (by rfl) (by decide)⟩

/-! ### Batch creation -/

/-- A note creation that returns a nil error returns the note it was given. -/
theorem createNote_ok {σ : Type} (D : Deps) (g : Server σ) (n note : Option Note)
    (w w1 : World σ) (h : createNote D g n w = (.ret note none, w1)) : note = n := by
  cases n with
  | none => simp [createNote, statusError] at h
  | some n0 =>
    unfold createNote at h
    simp only at h
    split at h
    · simp [statusError] at h
    · split at h
      · simp [statusError] at h
      · split at h
        · simp [statusError] at h
        · simp only [Prod.mk.injEq, Outcome.ret.injEq] at h
          exact h.1.1.symm

/-- An occurrence creation that returns a nil error returns the occurrence it was given
with the name replaced. -/
theorem createOccurrence_ok {σ : Type} (D : Deps) (g : Server σ) (o occ : Option Occurrence)
    (parent : String) (w w1 : World σ)
    (h : createOccurrence D g o parent w = (.ret occ none, w1)) :
    ∃ o1 nm, o = some o1 ∧ occ = some { o1 with Name := nm } := by
  cases o with
  | none => simp [createOccurrence, statusError] at h
  | some o0 =>
    unfold createOccurrence at h
    simp only at h
    split at h
    · simp [statusError] at h
    · split at h
      · simp [statusError] at h
      · split at h
        · simp [statusError] at h
        · split at h
          · simp [statusError] at h
          · split at h
            · simp [statusError] at h
            · simp only [Prod.mk.injEq, Outcome.ret.injEq] at h
              exact ⟨o0, _, rfl, h.1.1.symm⟩

/-- The loop of `BatchCreateNotes` over items that are all created appends what they
return, in order, to the accumulator. -/
theorem batchNotesLoop_created {σ : Type} (D : Deps) (g : Server σ) :
    ∀ (items acc created : List (Option Note)) (w w1 : World σ),
      notesCreated D g items w = some (created, w1) →
      batchNotesLoop D g items acc w = (.ret (some { Notes := acc ++ created }) none, w1)
  | [], acc, created, w, w1, h => by
    simp only [notesCreated, Option.some.injEq, Prod.mk.injEq] at h
    obtain ⟨rfl, rfl⟩ := h
    simp [batchNotesLoop]
  | n :: rest, acc, created, w, w1, h => by
    unfold notesCreated at h
    unfold batchNotesLoop
    rcases hc : createNote D g n w with ⟨_ | ⟨note, _ | e⟩, w2⟩
    · simp [hc] at h
    · rw [hc] at h
      simp only at h
      cases hr : notesCreated D g rest w2 with
      | none => simp [hr] at h
      | some r =>
        obtain ⟨cr, w3⟩ := r
        rw [hr] at h
        simp only [Option.some.injEq, Prod.mk.injEq] at h
        obtain ⟨rfl, rfl⟩ := h
        have ih := batchNotesLoop_created D g rest (acc ++ [note]) cr w2 w3 hr
        simp [ih]
    · simp [hc] at h

/-- The notes created by a fully successful run are the items themselves. -/
theorem notesCreated_eq {σ : Type} (D : Deps) (g : Server σ) :
    ∀ (items created : List (Option Note)) (w w1 : World σ),
      notesCreated D g items w = some (created, w1) → created = items
  | [], created, w, w1, h => by
    simp only [notesCreated, Option.some.injEq, Prod.mk.injEq] at h
    exact h.1.symm
  | n :: rest, created, w, w1, h => by
    unfold notesCreated at h
    rcases hc : createNote D g n w with ⟨_ | ⟨note, _ | e⟩, w2⟩
    · simp [hc] at h
    · rw [hc] at h
      simp only at h
      cases hr : notesCreated D g rest w2 with
      | none => simp [hr] at h
      | some r =>
        obtain ⟨cr, w3⟩ := r
        rw [hr] at h
        simp only [Option.some.injEq, Prod.mk.injEq] at h
        obtain ⟨rfl, rfl⟩ := h
        rw [createNote_ok D g n note w w2 hc, notesCreated_eq D g rest cr w2 w3 hr]
    · simp [hc] at h

/-- The loop of `BatchCreateOccurrences` over items that are all created appends what
they return, in order, to the accumulator. -/
theorem batchOccurrencesLoop_created {σ : Type} (D : Deps) (g : Server σ) (parent : String) :
    ∀ (items acc created : List (Option Occurrence)) (w w1 : World σ),
      occurrencesCreated D g parent items w = some (created, w1) →
      batchOccurrencesLoop D g parent items acc w =
        (.ret (some { Occurrences := acc ++ created }) none, w1)
  | [], acc, created, w, w1, h => by
    simp only [occurrencesCreated, Option.some.injEq, Prod.mk.injEq] at h
    obtain ⟨rfl, rfl⟩ := h
    simp [batchOccurrencesLoop]
  | o :: rest, acc, created, w, w1, h => by
    unfold occurrencesCreated at h
    unfold batchOccurrencesLoop
    rcases hc : createOccurrence D g o parent w with ⟨_ | ⟨occ, _ | e⟩, w2⟩
    · simp [hc] at h
    · rw [hc] at h
      simp only at h
      cases hr : occurrencesCreated D g parent rest w2 with
      | none => simp [hr] at h
      | some r =>
        obtain ⟨cr, w3⟩ := r
        rw [hr] at h
        simp only [Option.some.injEq, Prod.mk.injEq] at h
        obtain ⟨rfl, rfl⟩ := h
        have ih := batchOccurrencesLoop_created D g parent rest (acc ++ [occ]) cr w2 w3 hr
        simp [ih]
    · simp [hc] at h

/-- The occurrences created by a fully successful run are the items, one for one and in
order, each with its name replaced. -/
theorem occurrencesCreated_forall₂ {σ : Type} (D : Deps) (g : Server σ) (parent : String) :
    ∀ (items created : List (Option Occurrence)) (w w1 : World σ),
      occurrencesCreated D g parent items w = some (created, w1) →
      List.Forall₂ (fun c o => ∃ o1 nm, o = some o1 ∧ c = some { o1 with Name := nm })
        created items
  | [], created, w, w1, h => by
    simp only [occurrencesCreated, Option.some.injEq, Prod.mk.injEq] at h
    rw [← h.1]
    exact List.Forall₂.nil
  | o :: rest, created, w, w1, h => by
    unfold occurrencesCreated at h
    rcases hc : createOccurrence D g o parent w with ⟨_ | ⟨occ, _ | e⟩, w2⟩
    · simp [hc] at h
    · rw [hc] at h
      simp only at h
      cases hr : occurrencesCreated D g parent rest w2 with
      | none => simp [hr] at h
      | some r =>
        obtain ⟨cr, w3⟩ := r
        rw [hr] at h
        simp only [Option.some.injEq, Prod.mk.injEq] at h
        obtain ⟨rfl, rfl⟩ := h
        exact List.Forall₂.cons (createOccurrence_ok D g o occ parent w w2 hc)
          (occurrencesCreated_forall₂ D g parent rest cr w2 w3 hr)
    · simp [hc] at h

/-- C10 (counterexample). The batch of the notes `n2` and `n3` is run twice on the same
storage, with the two orders in which a `range` can yield the two entries of the map:
every creation succeeds in both runs, one run answers `[n2, n3]` and the other `[n3, n2]`.
The order of the response is not an order of the request. -/
theorem BatchCreateNotes_response_order_varies :
    [("n3", some noteN3), ("n2", some noteN2)].Perm batchN2N3.Notes ∧
    (BatchCreateNotes stdDeps ⟨memStore⟩ (some batchN2N3)
        [("n2", some noteN2), ("n3", some noteN3)] (World.fresh mem1)).1 =
      .ret (some { Notes := [some noteN2, some noteN3] }) none ∧
    (BatchCreateNotes stdDeps ⟨memStore⟩ (some batchN2N3)
        [("n3", some noteN3), ("n2", some noteN2)] (World.fresh mem1)).1 =
      .ret (some { Notes := [some noteN3, some noteN2] }) none ∧
    (BatchCreateNotes stdDeps ⟨memStore⟩ (some batchN2N3)
        [("n2", some noteN2), ("n3", some noteN3)] (World.fresh mem1)).1 ≠
      (BatchCreateNotes stdDeps ⟨memStore⟩ (some batchN2N3)
        [("n3", some noteN3), ("n2", some noteN2)] (World.fresh mem1)).1 :=
  ⟨List.Perm.swap _ _ _, by decide, by decide, by decide⟩

/-- C10 (amended). For `BatchCreateNotes` and `BatchCreateOccurrences` alike: a request
with more than 1000 items returns no response and an `InvalidArgument` error and leaves
the world as it was (no storage call); a request with at most 1000 items is handed to the
per-item loop, and when every item's creation in turn returns a nil error the batch
returns, with a nil error, the resources those creations returned, one per item, in the
world the last creation left. For occurrences they come in request order (the items with
their name replaced). For notes, whose request field is a map, they are the notes
themselves in the order `visit` in which the run visited the map, a permutation of the
notes of the request. -/
theorem batch_limit {σ : Type} (D : Deps) (g : Server σ) (w : World σ) :
    (∀ (req : BatchCreateNotesRequest) (visit : List (String × Option Note)),
      req.Notes.length > 1000 →
      ∃ err, BatchCreateNotes D g (some req) visit w = (.ret none (some err), w) ∧
        err.kind = Code.InvalidArgument) ∧
    (∀ req : BatchCreateOccurrencesRequest, req.Occurrences.length > 1000 →
      ∃ err, BatchCreateOccurrences D g (some req) w = (.ret none (some err), w) ∧
        err.kind = Code.InvalidArgument) ∧
    (∀ (req : BatchCreateNotesRequest) (visit : List (String × Option Note)),
      visit.Perm req.Notes → req.Notes.length ≤ 1000 →
      BatchCreateNotes D g (some req) visit w =
        batchNotesLoop D g (visit.map Prod.snd) [] w ∧
      ∀ created w1, notesCreated D g (visit.map Prod.snd) w = some (created, w1) →
        BatchCreateNotes D g (some req) visit w =
          (.ret (some { Notes := created }) none, w1) ∧
        created = visit.map Prod.snd ∧
        created.length = req.Notes.length ∧
        created.Perm (req.Notes.map Prod.snd)) ∧
    (∀ req : BatchCreateOccurrencesRequest, req.Occurrences.length ≤ 1000 →
      BatchCreateOccurrences D g (some req) w =
        batchOccurrencesLoop D g req.Parent req.Occurrences [] w ∧
      ∀ created w1, occurrencesCreated D g req.Parent req.Occurrences w = some (created, w1) →
        BatchCreateOccurrences D g (some req) w =
          (.ret (some { Occurrences := created }) none, w1) ∧
        created.length = req.Occurrences.length ∧
        List.Forall₂ (fun c o => ∃ o1 nm, o = some o1 ∧ c = some { o1 with Name := nm })
          created req.Occurrences) := by
  refine ⟨?_, ?_, ?_, ?_⟩
  · intro req visit hlen
    exact ⟨Err.status Code.InvalidArgument "Too many notes",
      by simp [BatchCreateNotes, maxBatch, hlen, statusError], rfl⟩
  · intro req hlen
    exact ⟨Err.status Code.InvalidArgument "Too many occurrences",
      by simp [BatchCreateOccurrences, maxBatch, hlen, statusError], rfl⟩
  · intro req visit hperm hlen
    have hrun : BatchCreateNotes D g (some req) visit w =
        batchNotesLoop D g (visit.map Prod.snd) [] w :=
      if_neg (Nat.not_lt.mpr hlen)
    refine ⟨hrun, ?_⟩
    intro created w1 hall
    have heq := notesCreated_eq D g (visit.map Prod.snd) created w w1 hall
    refine ⟨?_, heq, ?_, ?_⟩
    · rw [hrun, batchNotesLoop_created D g (visit.map Prod.snd) [] created w w1 hall]
      simp
    · rw [heq, List.length_map, hperm.length_eq]
    · rw [heq]
      exact hperm.map Prod.snd
  · intro req hlen
    have hrun : BatchCreateOccurrences D g (some req) w =
        batchOccurrencesLoop D g req.Parent req.Occurrences [] w := by
      simp [BatchCreateOccurrences, maxBatch, Nat.not_lt.mpr hlen]
    refine ⟨hrun, ?_⟩
    intro created w1 hall
    have hall2 := occurrencesCreated_forall₂ D g req.Parent req.Occurrences created w w1 hall
    refine ⟨?_, hall2.length_eq, hall2⟩
    rw [hrun, batchOccurrencesLoop_created D g req.Parent req.Occurrences [] created w w1 hall]
    simp

/-- Witness of C10 (amended): two notes, visited in the order `n2`, `n3`, and two
occurrences created in the in-memory storage, and a batch of 1001 notes refused. -/
theorem batch_limit_witness :
    notesCreated stdDeps ⟨memStore⟩ (batchN2N3.Notes.map Prod.snd) (World.fresh mem1) =
      some ([some noteN2, some noteN3], worldNotes) ∧
    BatchCreateNotes stdDeps ⟨memStore⟩ (some batchN2N3) batchN2N3.Notes (World.fresh mem1) =
      (.ret (some { Notes := [some noteN2, some noteN3] }) none, worldNotes) ∧
    occurrencesCreated stdDeps ⟨memStore⟩ "projects/p1"
        [some occO1, some { occO1 with Name := "", Remediation := "upgrade" }]
        (World.fresh mem1) =
      some ([some occId0, some occId1], worldOccurrences) ∧
    BatchCreateOccurrences stdDeps ⟨memStore⟩
        (some { Parent := "projects/p1",
                Occurrences :=
                  [some occO1, some { occO1 with Name := "", Remediation := "upgrade" }] })
        (World.fresh mem1) =
      (.ret (some { Occurrences := [some occId0, some occId1] }) none, worldOccurrences) ∧
    (∃ err, BatchCreateNotes stdDeps ⟨memStore⟩ (some batch1001) batch1001.Notes
        (World.fresh mem1) = (.ret none (some err), World.fresh mem1) ∧
      err.kind = Code.InvalidArgument) :=
  have h := batch_limit stdDeps ⟨memStore⟩ (World.fresh mem1)
  have hn : notesCreated stdDeps ⟨memStore⟩ (batchN2N3.Notes.map Prod.snd)
      (World.fresh mem1) = some ([some noteN2, some noteN3], worldNotes) := by decide
  have ho : occurrencesCreated stdDeps ⟨memStore⟩ "projects/p1"
      [some occO1, some { occO1 with Name := "", Remediation := "upgrade" }]
      (World.fresh mem1) = some ([some occId0, some occId1], worldOccurrences) := by decide
  ⟨hn,
   ((h.2.2.1 batchN2N3 batchN2N3.Notes (List.Perm.refl _) (by decide)).2 _ _ hn).1,
   ho,
   ((h.2.2.2 { Parent := "projects/p1",
               Occurrences :=
                 [some occO1, some { occO1 with Name := "", Remediation := "upgrade" }] }
      (by decide)).2 _ _ ho).1,
   h.1 batch1001 batch1001.Notes
     (by simp only [batch1001, List.length_map, List.length_range]
         decide)⟩

/-! ### Single creations -/

/-- C13. For an occurrence creation with a present payload whose note name parses to
`(npID, nID)`: if storage `GetNote` returns no note or an error, the operation returns no
occurrence and a `NotFound` error after that single storage call; if the note is found,
the parent parses to `pID` and storage `GetProject pID` fails, it returns no occurrence
and a `NotFound` error after the two calls `GetNote`, `GetProject`. In both cases storage
`CreateOccurrence` is not called. -/
theorem createOccurrence_missing_reference {σ : Type} (D : Deps) (g : Server σ)
    (o : Occurrence) (project npID nID : String) (w : World σ)
    (hnote : D.ParseNote o.NoteName = .ok (npID, nID)) :
    ((g.S.GetNote npID nID w.store).1.1 = none ∨ (g.S.GetNote npID nID w.store).1.2 ≠ none →
      (∃ err, (createOccurrence D g (some o) project w).1 = .ret none (some err) ∧
        err.kind = Code.NotFound) ∧
      (createOccurrence D g (some o) project w).2.trace = w.trace ++ [.GetNote npID nID]) ∧
    (∀ n pID, (g.S.GetNote npID nID w.store).1 = (some n, none) →
      D.ParseProject project = .ok pID →
      (g.S.GetProject pID (g.S.GetNote npID nID w.store).2).1.2 ≠ none →
      (∃ err, (createOccurrence D g (some o) project w).1 = .ret none (some err) ∧
        err.kind = Code.NotFound) ∧
      (createOccurrence D g (some o) project w).2.trace =
        w.trace ++ [.GetNote npID nID, .GetProject pID]) ∧
    (∀ req : CreateOccurrenceRequest,
      CreateOccurrence D g (some req) w = createOccurrence D g req.Occurrence req.Parent w) := by
  refine ⟨?_, ?_, fun req => rfl⟩
  · intro hmiss
    have hrun : createOccurrence D g (some o) project w =
        (.ret none (statusError .NotFound ("note " ++ o.NoteName ++ " not found")),
          (w.call (.GetNote npID nID) (g.S.GetNote npID nID)).2) := by
      simp only [createOccurrence, hnote]
      rw [if_pos (by simpa [World.call] using hmiss)]
    rw [hrun]
    exact ⟨⟨_, rfl, rfl⟩, rfl⟩
  · intro n pID hget hproj hfail
    have hrun : createOccurrence D g (some o) project w =
        (.ret none (statusError .NotFound ("project " ++ pID ++ " not found")),
          ((w.call (.GetNote npID nID) (g.S.GetNote npID nID)).2.call (.GetProject pID)
            (g.S.GetProject pID)).2) := by
      simp only [createOccurrence, hnote]
      rw [if_neg (by simp [World.call, hget])]
      simp only [hproj]
      rw [if_pos (by simpa [World.call] using hfail)]
    rw [hrun]
    exact ⟨⟨_, rfl, rfl⟩, by simp [World.call]⟩

/-- Witness of C13: an occurrence of `n1` on a storage that holds nothing, and on a storage
that holds `n1` under a parent project `p9` it does not hold. -/
theorem createOccurrence_missing_reference_witness :
    stdDeps.ParseNote occO1.NoteName = .ok ("p1", "n1") ∧
    (∃ err, (createOccurrence stdDeps ⟨memStore⟩ (some occO1) "projects/p1"
        (World.fresh mem0)).1 = .ret none (some err) ∧ err.kind = Code.NotFound) ∧
    (createOccurrence stdDeps ⟨memStore⟩ (some occO1) "projects/p9"
        (World.fresh mem1)).2.trace = [] ++ [.GetNote "p1" "n1", .GetProject "p9"] :=
  have h0 := createOccurrence_missing_reference stdDeps ⟨memStore⟩ occO1 "projects/p1"
    "p1" "n1" (World.fresh mem0) (by rfl)
  have h1 := createOccurrence_missing_reference stdDeps ⟨memStore⟩ occO1 "projects/p9"
    "p1" "n1" (World.fresh mem1) (by rfl)
  ⟨by rfl, (h0.1 (by decide)).1, (h1.2.1 noteN1 "p9" (by decide) (by rfl) (by decide)).2⟩

/-- C14. For an occurrence creation that passes validation (the note name parses and
storage finds the note, the parent parses to `pID` and storage finds the project): if the
identifier source gives `id`, the occurrence handed to storage `CreateOccurrence` and the
one returned are the payload with its name set to `OccurrenceName pID id`; if the
identifier source fails, the operation returns no occurrence and an `Internal` error and
storage `CreateOccurrence` is not called. The name the caller put in the payload is never
read: replacing it changes neither the result nor the world left. -/
theorem createOccurrence_generated_name {σ : Type} (D : Deps) (g : Server σ)
    (o : Occurrence) (project npID nID pID : String) (n : Note) (w : World σ)
    (hnote : D.ParseNote o.NoteName = .ok (npID, nID))
    (hget : (g.S.GetNote npID nID w.store).1 = (some n, none))
    (hproj : D.ParseProject project = .ok pID)
    (hgp : (g.S.GetProject pID (g.S.GetNote npID nID w.store).2).1.2 = none) :
    (∀ id, D.NewRandom w.drawn = .ok id →
      (∃ err, (createOccurrence D g (some o) project w).1 =
        .ret (some { o with Name := D.OccurrenceName pID id }) err) ∧
      (createOccurrence D g (some o) project w).2.trace =
        w.trace ++ [.GetNote npID nID, .GetProject pID,
          .CreateOccurrence { o with Name := D.OccurrenceName pID id }]) ∧
    (∀ e, D.NewRandom w.drawn = .error e →
      (∃ err, (createOccurrence D g (some o) project w).1 = .ret none (some err) ∧
        err.kind = Code.Internal) ∧
      (createOccurrence D g (some o) project w).2.trace =
        w.trace ++ [.GetNote npID nID, .GetProject pID]) ∧
    (∀ nm, createOccurrence D g (some { o with Name := nm }) project w =
      createOccurrence D g (some o) project w) := by
  have hstep : createOccurrence D g (some o) project w =
      (match D.NewRandom w.drawn with
        | .error _ =>
          (.ret none (statusError .Internal "could not generate occurrence name"),
            (((w.call (.GetNote npID nID) (g.S.GetNote npID nID)).2.call (.GetProject pID)
              (g.S.GetProject pID)).2.newRandom D).2)
        | .ok randID =>
          (.ret (some { o with Name := D.OccurrenceName pID randID })
              ((((w.call (.GetNote npID nID) (g.S.GetNote npID nID)).2.call (.GetProject pID)
                (g.S.GetProject pID)).2.newRandom D).2.call
                  (.CreateOccurrence { o with Name := D.OccurrenceName pID randID })
                  (g.S.CreateOccurrence { o with Name := D.OccurrenceName pID randID })).1,
            ((((w.call (.GetNote npID nID) (g.S.GetNote npID nID)).2.call (.GetProject pID)
                (g.S.GetProject pID)).2.newRandom D).2.call
                  (.CreateOccurrence { o with Name := D.OccurrenceName pID randID })
                  (g.S.CreateOccurrence { o with Name := D.OccurrenceName pID randID })).2)) := by
    simp only [createOccurrence, hnote]
    rw [if_neg (by simp [World.call, hget])]
    simp only [hproj]
    rw [if_neg (by simpa [World.call] using hgp)]
    rfl
  refine ⟨?_, ?_, ?_⟩
  · intro id hid
    rw [hstep, hid]
    exact ⟨⟨_, rfl⟩, by simp [World.call, World.newRandom]⟩
  · intro e he
    rw [hstep, he]
    exact ⟨⟨_, rfl, rfl⟩, by simp [World.call, World.newRandom]⟩
  · intro nm
    rfl

/-- Witness of C14: an occurrence of `n1` under `projects/p1`, with the first identifier
`id0`. -/
theorem createOccurrence_generated_name_witness :
    stdDeps.NewRandom (World.fresh mem1).drawn = .ok "id0" ∧
    (∃ err, (createOccurrence stdDeps ⟨memStore⟩ (some occO1) "projects/p1"
        (World.fresh mem1)).1 =
      .ret (some { occO1 with Name := stdDeps.OccurrenceName "p1" "id0" }) err) ∧
    (∃ err, (createOccurrence noEntropyDeps ⟨memStore⟩ (some occO1) "projects/p1"
        (World.fresh mem1)).1 = .ret none (some err) ∧ err.kind = Code.Internal) :=
  ⟨by rfl,
   ((createOccurrence_generated_name stdDeps ⟨memStore⟩ occO1 "projects/p1" "p1" "n1" "p1"
      noteN1 (World.fresh mem1) (by rfl) (by decide) (by rfl) (by decide)).1 "id0"
      (by rfl)).1,
   ((createOccurrence_generated_name noEntropyDeps ⟨memStore⟩ occO1 "projects/p1" "p1" "n1"
      "p1" noteN1 (World.fresh mem1) (by rfl) (by decide) (by rfl) (by decide)).2.1
      (Err.plain "no entropy") (by rfl)).1⟩

/-! ### The join lookup -/

/-- C15. `GetOccurrenceNote` on a name that parses and resolves to a stored occurrence `o`
whose `NoteName` parses does, after its storage `GetOccurrence` call, exactly what
`GetNote` does for the name `o.NoteName`: same note, same error, same storage call.
If the name does not parse it returns `InvalidArgument` and makes no storage call; if
storage `GetOccurrence` fails it returns that error and makes no further call; if
`o.NoteName` does not parse it returns `InvalidArgument` and makes no further call. -/
theorem GetOccurrenceNote_refines_GetNote {σ : Type} (D : Deps) (g : Server σ)
    (req : NameRequest) (w : World σ) :
    (∀ pID oID o npID nID, D.ParseOccurrence req.Name = .ok (pID, oID) →
      (g.S.GetOccurrence pID oID w.store).1 = (some o, none) →
      D.ParseNote o.NoteName = .ok (npID, nID) →
      GetOccurrenceNote D g (some req) w =
        GetNote D g (some { Name := o.NoteName })
          (w.call (.GetOccurrence pID oID) (g.S.GetOccurrence pID oID)).2) ∧
    (∀ e, D.ParseOccurrence req.Name = .error e →
      ∃ err, GetOccurrenceNote D g (some req) w = (.ret none (some err), w) ∧
        err.kind = Code.InvalidArgument) ∧
    (∀ pID oID e, D.ParseOccurrence req.Name = .ok (pID, oID) →
      (g.S.GetOccurrence pID oID w.store).1.2 = some e →
      GetOccurrenceNote D g (some req) w =
        (.ret none (some e), (w.call (.GetOccurrence pID oID) (g.S.GetOccurrence pID oID)).2)) ∧
    (∀ pID oID o e, D.ParseOccurrence req.Name = .ok (pID, oID) →
      (g.S.GetOccurrence pID oID w.store).1 = (some o, none) →
      D.ParseNote o.NoteName = .error e →
      ∃ err, GetOccurrenceNote D g (some req) w =
          (.ret none (some err),
            (w.call (.GetOccurrence pID oID) (g.S.GetOccurrence pID oID)).2) ∧
        err.kind = Code.InvalidArgument) := by
  refine ⟨?_, ?_, ?_, ?_⟩
  · intro pID oID o npID nID hp hg hn
    simp [GetOccurrenceNote, GetNote, hp, hg, hn, World.call]
  · intro e he
    exact ⟨Err.status Code.InvalidArgument "Invalid occurrence name",
      by simp [GetOccurrenceNote, he, statusError], rfl⟩
  · intro pID oID e hp hg
    simp [GetOccurrenceNote, hp, hg, World.call]
  · intro pID oID o e hp hg hn
    exact ⟨Err.status Code.InvalidArgument ("Invalid note name: " ++ o.NoteName),
      by simp [GetOccurrenceNote, hp, hg, hn, World.call, statusError], rfl⟩

/-- Witness of C15: occurrence `o1` of note `n1`, on a storage that holds both and on one
from which `n1` has been removed. -/
theorem GetOccurrenceNote_refines_GetNote_witness :
    (GetOccurrenceNote stdDeps ⟨memStore⟩ (some { Name := occO1.Name }) (World.fresh mem1)).1 =
      .ret (some noteN1) none ∧
    GetOccurrenceNote stdDeps ⟨memStore⟩ (some { Name := occO1.Name })
        (World.fresh { mem1 with notes := [] }) =
      GetNote stdDeps ⟨memStore⟩ (some { Name := occO1.NoteName })
        ((World.fresh { mem1 with notes := [] }).call (.GetOccurrence "p1" "o1")
          (memStore.GetOccurrence "p1" "o1")).2 ∧
    (∃ err, (GetOccurrenceNote stdDeps ⟨memStore⟩ (some { Name := occO1.Name })
        (World.fresh { mem1 with notes := [] })).1 = .ret none (some err) ∧
      err.kind = Code.NotFound) :=
  ⟨by decide,
   (GetOccurrenceNote_refines_GetNote stdDeps ⟨memStore⟩ { Name := occO1.Name }
      (World.fresh { mem1 with notes := [] })).1 "p1" "o1" occO1 "p1" "n1"
      (by rfl) (by decide) (by rfl),
   ⟨Err.status Code.NotFound "projects/p1/notes/n1 not found", by decide, rfl⟩⟩

/-! ### Lists -/

/-- C16. For each of the four list handlers: the run on a request with page size 0 is the
run on the same request with page size 100; when the parent or name parses (nothing is
parsed for `ListProjects`) the one storage call made is the matching list call, with the
filter and the page token of the request and, for a non-zero page size, the page size of
the request; and when that call returns a nil error the response holds the collection
and the next-page token exactly as storage returned them. -/
theorem list_pagination {σ : Type} (D : Deps) (g : Server σ) (w : World σ) :
    (∀ r : ListProjectsRequest,
      ListProjects D g (some { r with PageSize := 0 }) w =
        ListProjects D g (some { r with PageSize := 100 }) w ∧
      (r.PageSize ≠ 0 →
        (ListProjects D g (some r) w).2.trace =
          w.trace ++ [.ListProjects r.Filter r.PageSize r.PageToken] ∧
        ∀ ps tok, (g.S.ListProjects r.Filter r.PageSize r.PageToken w.store).1 =
            (ps, tok, none) →
          (ListProjects D g (some r) w).1 =
            .ret (some { Projects := ps, NextPageToken := tok }) none)) ∧
    (∀ (r : ListRequest) (pID : String), D.ParseProject r.Parent = .ok pID →
      ListNotes D g (some { r with PageSize := 0 }) w =
        ListNotes D g (some { r with PageSize := 100 }) w ∧
      (r.PageSize ≠ 0 →
        (ListNotes D g (some r) w).2.trace =
          w.trace ++ [.ListNotes pID r.Filter r.PageSize r.PageToken] ∧
        ∀ ns tok, (g.S.ListNotes pID r.Filter r.PageSize r.PageToken w.store).1 =
            (ns, tok, none) →
          (ListNotes D g (some r) w).1 =
            .ret (some { Notes := ns, NextPageToken := tok }) none)) ∧
    (∀ (r : ListRequest) (pID : String), D.ParseProject r.Parent = .ok pID →
      ListOccurrences D g (some { r with PageSize := 0 }) w =
        ListOccurrences D g (some { r with PageSize := 100 }) w ∧
      (r.PageSize ≠ 0 →
        (ListOccurrences D g (some r) w).2.trace =
          w.trace ++ [.ListOccurrences pID r.Filter r.PageSize r.PageToken] ∧
        ∀ os tok, (g.S.ListOccurrences pID r.Filter r.PageSize r.PageToken w.store).1 =
            (os, tok, none) →
          (ListOccurrences D g (some r) w).1 =
            .ret (some { Occurrences := os, NextPageToken := tok }) none)) ∧
    (∀ (r : ListNoteOccurrencesRequest) (pID nID : String),
      D.ParseNote r.Name = .ok (pID, nID) →
      ListNoteOccurrences D g (some { r with PageSize := 0 }) w =
        ListNoteOccurrences D g (some { r with PageSize := 100 }) w ∧
      (r.PageSize ≠ 0 →
        (ListNoteOccurrences D g (some r) w).2.trace =
          w.trace ++ [.ListNoteOccurrences pID nID r.Filter r.PageSize r.PageToken] ∧
        ∀ os tok,
          (g.S.ListNoteOccurrences pID nID r.Filter r.PageSize r.PageToken w.store).1 =
            (os, tok, none) →
          (ListNoteOccurrences D g (some r) w).1 =
            .ret (some { Occurrences := os, NextPageToken := tok }) none)) := by
  refine ⟨?_, ?_, ?_, ?_⟩
  · intro r
    refine ⟨by simp [ListProjects], fun hps => ⟨by simp [ListProjects, World.call, hps]; split <;> rfl, ?_⟩⟩
    intro ps tok hres
    simp [ListProjects, World.call, hps, hres]
  · intro r pID hp
    refine ⟨by simp [ListNotes], fun hps => ⟨by simp [ListNotes, hp, World.call, hps]; split <;> rfl, ?_⟩⟩
    intro ns tok hres
    simp [ListNotes, hp, World.call, hps, hres]
  · intro r pID hp
    refine ⟨by simp [ListOccurrences],
      fun hps => ⟨by simp [ListOccurrences, hp, World.call, hps]; split <;> rfl, ?_⟩⟩
    intro os tok hres
    simp [ListOccurrences, hp, World.call, hps, hres]
  · intro r pID nID hp
    refine ⟨by simp [ListNoteOccurrences],
      fun hps => ⟨by simp [ListNoteOccurrences, hp, World.call, hps]; split <;> rfl, ?_⟩⟩
    intro os tok hres
    simp [ListNoteOccurrences, hp, World.call, hps, hres]

/-! ### Point reads and deletes -/

/-- C17. For each of `GetProject`, `GetNote`, `GetOccurrence`, `DeleteProject`,
`DeleteNote` and `DeleteOccurrence`: if the name of the request does not parse, the
handler returns an `InvalidArgument` error and leaves the world as it was; if it parses,
the handler makes exactly one storage call, the matching get or delete on the parsed
identifiers, and returns what that call returned: the resource and the error for a get,
the error (next to an `Empty` message) for a delete. -/
theorem point_operations_delegate {σ : Type} (D : Deps) (g : Server σ) (req : NameRequest)
    (w : World σ) :
    ((∀ e, D.ParseProject req.Name = .error e →
        ∃ err, GetProject D g (some req) w = (.ret none (some err), w) ∧
          err.kind = Code.InvalidArgument) ∧
      (∀ pID, D.ParseProject req.Name = .ok pID →
        GetProject D g (some req) w =
          (.ret (g.S.GetProject pID w.store).1.1 (g.S.GetProject pID w.store).1.2,
            { w with store := (g.S.GetProject pID w.store).2,
                     trace := w.trace ++ [.GetProject pID] }))) ∧
    ((∀ e, D.ParseNote req.Name = .error e →
        ∃ err, GetNote D g (some req) w = (.ret none (some err), w) ∧
          err.kind = Code.InvalidArgument) ∧
      (∀ pID nID, D.ParseNote req.Name = .ok (pID, nID) →
        GetNote D g (some req) w =
          (.ret (g.S.GetNote pID nID w.store).1.1 (g.S.GetNote pID nID w.store).1.2,
            { w with store := (g.S.GetNote pID nID w.store).2,
                     trace := w.trace ++ [.GetNote pID nID] }))) ∧
    ((∀ e, D.ParseOccurrence req.Name = .error e →
        ∃ err, GetOccurrence D g (some req) w = (.ret none (some err), w) ∧
          err.kind = Code.InvalidArgument) ∧
      (∀ pID oID, D.ParseOccurrence req.Name = .ok (pID, oID) →
        GetOccurrence D g (some req) w =
          (.ret (g.S.GetOccurrence pID oID w.store).1.1 (g.S.GetOccurrence pID oID w.store).1.2,
            { w with store := (g.S.GetOccurrence pID oID w.store).2,
                     trace := w.trace ++ [.GetOccurrence pID oID] }))) ∧
    ((∀ e, D.ParseProject req.Name = .error e →
        ∃ err, DeleteProject D g (some req) w = (.ret none (some err), w) ∧
          err.kind = Code.InvalidArgument) ∧
      (∀ pID, D.ParseProject req.Name = .ok pID →
        DeleteProject D g (some req) w =
          (.ret (some {}) (g.S.DeleteProject pID w.store).1,
            { w with store := (g.S.DeleteProject pID w.store).2,
                     trace := w.trace ++ [.DeleteProject pID] }))) ∧
    ((∀ e, D.ParseNote req.Name = .error e →
        ∃ err, DeleteNote D g (some req) w = (.ret none (some err), w) ∧
          err.kind = Code.InvalidArgument) ∧
      (∀ pID nID, D.ParseNote req.Name = .ok (pID, nID) →
        DeleteNote D g (some req) w =
          (.ret (some {}) (g.S.DeleteNote pID nID w.store).1,
            { w with store := (g.S.DeleteNote pID nID w.store).2,
                     trace := w.trace ++ [.DeleteNote pID nID] }))) ∧
    ((∀ e, D.ParseOccurrence req.Name = .error e →
        ∃ err, DeleteOccurrence D g (some req) w = (.ret none (some err), w) ∧
          err.kind = Code.InvalidArgument) ∧
      (∀ pID oID, D.ParseOccurrence req.Name = .ok (pID, oID) →
        DeleteOccurrence D g (some req) w =
          (.ret (some {}) (g.S.DeleteOccurrence pID oID w.store).1,
            { w with store := (g.S.DeleteOccurrence pID oID w.store).2,
                     trace := w.trace ++ [.DeleteOccurrence pID oID] }))) := by
  refine ⟨?_, ?_, ?_, ?_, ?_, ?_⟩
  · refine ⟨fun e he => ⟨Err.status Code.InvalidArgument "Invalid Project name",
      by simp [GetProject, he, statusError], rfl⟩, ?_⟩
    intro pID hp
    simp [GetProject, hp, World.call]
  · refine ⟨fun e he => ⟨Err.status Code.InvalidArgument "Invalid Note name",
      by simp [GetNote, he, statusError], rfl⟩, ?_⟩
    intro pID nID hp
    simp [GetNote, hp, World.call]
  · refine ⟨fun e he => ⟨Err.status Code.InvalidArgument "Could note parse name",
      by simp [GetOccurrence, he, statusError], rfl⟩, ?_⟩
    intro pID oID hp
    simp [GetOccurrence, hp, World.call]
  · refine ⟨fun e he => ⟨Err.status Code.InvalidArgument "Invalid Project name",
      by simp [DeleteProject, he, statusError], rfl⟩, ?_⟩
    intro pID hp
    simp [DeleteProject, hp, World.call]
  · refine ⟨fun e he => ⟨Err.status Code.InvalidArgument "Invalid note name",
      by simp [DeleteNote, he, statusError], rfl⟩, ?_⟩
    intro pID nID hp
    simp [DeleteNote, hp, World.call]
  · refine ⟨fun e he => ⟨Err.status Code.InvalidArgument "Invalid occurrence name",
      by simp [DeleteOccurrence, he, statusError], rfl⟩, ?_⟩
    intro pID oID hp
    simp [DeleteOccurrence, hp, World.call]

/-- Witness of C17: the name of note `n1` given to `GetProject` (it is no project name),
to `GetNote` and to `DeleteNote`, on the in-memory storage. -/
theorem point_operations_delegate_witness :
    (∃ err, GetProject stdDeps ⟨memStore⟩ (some { Name := "projects/p1/notes/n1" })
        (World.fresh mem1) = (.ret none (some err), World.fresh mem1) ∧
      err.kind = Code.InvalidArgument) ∧
    GetNote stdDeps ⟨memStore⟩ (some { Name := "projects/p1/notes/n1" }) (World.fresh mem1) =
      (.ret (memStore.GetNote "p1" "n1" mem1).1.1 (memStore.GetNote "p1" "n1" mem1).1.2,
        { World.fresh mem1 with store := (memStore.GetNote "p1" "n1" mem1).2,
                                trace := [] ++ [.GetNote "p1" "n1"] }) ∧
    DeleteNote stdDeps ⟨memStore⟩ (some { Name := "projects/p1/notes/n1" })
        (World.fresh mem1) =
      (.ret (some {}) (memStore.DeleteNote "p1" "n1" mem1).1,
        { World.fresh mem1 with store := (memStore.DeleteNote "p1" "n1" mem1).2,
                                trace := [] ++ [.DeleteNote "p1" "n1"] }) :=
  have h := point_operations_delegate stdDeps ⟨memStore⟩ { Name := "projects/p1/notes/n1" }
    (World.fresh mem1)
  ⟨h.1.1 (badName "projects/p1/notes/n1") (by rfl),
   h.2.1.2 "p1" "n1" (by rfl),
   h.2.2.2.2.1.2 "p1" "n1" (by rfl)⟩

/-- Witness of C16: the notes of `p1` listed with page size 0 and with page size 7. -/
theorem list_pagination_witness :
    ListNotes stdDeps ⟨memStore⟩
        (some { Parent := "projects/p1", Filter := "kind=x", PageSize := 0, PageToken := "t" })
        (World.fresh mem1) =
      ListNotes stdDeps ⟨memStore⟩
        (some { Parent := "projects/p1", Filter := "kind=x", PageSize := 100, PageToken := "t" })
        (World.fresh mem1) ∧
    (ListNotes stdDeps ⟨memStore⟩
        (some { Parent := "projects/p1", Filter := "kind=x", PageSize := 7, PageToken := "t" })
        (World.fresh mem1)).2.trace = [] ++ [.ListNotes "p1" "kind=x" 7 "t"] ∧
    (ListNotes stdDeps ⟨memStore⟩
        (some { Parent := "projects/p1", Filter := "kind=x", PageSize := 7, PageToken := "t" })
        (World.fresh mem1)).1 =
      .ret (some { Notes := [some noteN1], NextPageToken := "" }) none :=
  have h := (list_pagination stdDeps ⟨memStore⟩ (World.fresh mem1)).2.1
    { Parent := "projects/p1", Filter := "kind=x", PageSize := 7, PageToken := "t" } "p1"
    (by rfl)
  ⟨h.1, (h.2 (by decide)).1, (h.2 (by decide)).2 [some noteN1] "" (by decide)⟩

/-- C18. Given a `name` package whose project parser reports a malformed name with an
`InvalidArgument` error: for each of `ListNotes`, `ListOccurrences` and
`ListNoteOccurrences`, a request whose parent (or note) name does not parse returns no
response and an error of kind `InvalidArgument`, and the world is as it was (no storage
call). `ListNotes` and `ListNoteOccurrences` build that error themselves;
`ListOccurrences` returns the error of the parser. -/
theorem list_bad_name {σ : Type} (D : Deps) (g : Server σ) (w : World σ)
    (hcodec : ∀ s e, D.ParseProject s = .error e → e.kind = Code.InvalidArgument) :
    (∀ (r : ListRequest) (e : Err), D.ParseProject r.Parent = .error e →
      ∃ err, ListNotes D g (some r) w = (.ret none (some err), w) ∧
        err.kind = Code.InvalidArgument) ∧
    (∀ (r : ListRequest) (e : Err), D.ParseProject r.Parent = .error e →
      ListOccurrences D g (some r) w = (.ret none (some e), w) ∧
      ∃ err, ListOccurrences D g (some r) w = (.ret none (some err), w) ∧
        err.kind = Code.InvalidArgument) ∧
    (∀ (r : ListNoteOccurrencesRequest) (e : Err), D.ParseNote r.Name = .error e →
      ∃ err, ListNoteOccurrences D g (some r) w = (.ret none (some err), w) ∧
        err.kind = Code.InvalidArgument) := by
  refine ⟨?_, ?_, ?_⟩
  · intro r e he
    exact ⟨Err.status Code.InvalidArgument "Invalid Project name",
      by simp [ListNotes, he, statusError], rfl⟩
  · intro r e he
    have hrun : ListOccurrences D g (some r) w = (.ret none (some e), w) := by
      simp [ListOccurrences, he]
    exact ⟨hrun, e, hrun, hcodec r.Parent e he⟩
  · intro r e he
    exact ⟨Err.status Code.InvalidArgument "Invalid note name",
      by simp [ListNoteOccurrences, he, statusError], rfl⟩

/-- The project parser modelled from the spec fails with `InvalidArgument` only. -/
theorem parseProject_error_kind (s : String) (e : Err) (h : parseProject s = .error e) :
    e.kind = Code.InvalidArgument := by
  unfold parseProject at h
  split at h
  · split at h
    · cases h
    · cases h
      rfl
  · cases h
    rfl

/-- Witness of C18: the parent `p1`, which is no project name, on the in-memory storage. -/
theorem list_bad_name_witness :
    stdDeps.ParseProject "p1" = .error (badName "p1") ∧
    (∃ err, ListOccurrences stdDeps ⟨memStore⟩
        (some { Parent := "p1", Filter := "", PageSize := 0, PageToken := "" })
        (World.fresh mem1) = (.ret none (some err), World.fresh mem1) ∧
      err.kind = Code.InvalidArgument) :=
  ⟨by rfl,
   ((list_bad_name stdDeps ⟨memStore⟩ (World.fresh mem1) parseProject_error_kind).2.1
      { Parent := "p1", Filter := "", PageSize := 0, PageToken := "" } (badName "p1")
      (by rfl)).2⟩

/-! ### The summary query -/

/-- C20. For every request and every world, `GetVulnerabilityOccurrencesSummary` returns
no summary and an error of kind `Unimplemented`, and leaves the world as it was (no
storage call). -/
theorem GetVulnerabilityOccurrencesSummary_unimplemented {σ : Type} (g : Server σ)
    (req : Option GetVulnerabilityOccurrencesSummaryRequest) (w : World σ) :
    ∃ err, GetVulnerabilityOccurrencesSummary g req w = (.ret none (some err), w) ∧
      err.kind = Code.Unimplemented :=
  ⟨Err.status Code.Unimplemented "GetVulnerabilityOccurrencesSummary is not yet implemented",
    rfl, rfl⟩

/-! ### Referential integrity -/

/-- C19 (code evaluated at the failing input). The in-memory storage holds note `n1` and
occurrence `o1` of that note, so every occurrence's note resolves; `DeleteNote` of `n1`
succeeds with the single storage call `DeleteNote`, and in the storage it leaves the note
of `o1` no longer resolves. -/
theorem DeleteNote_breaks_note_reference :
    refsResolve mem1 = true ∧
    DeleteNote stdDeps ⟨memStore⟩ (some { Name := "projects/p1/notes/n1" })
        (World.fresh mem1) =
      (.ret (some {}) none,
        { store := { mem1 with notes := [] }, trace := [.DeleteNote "p1" "n1"], drawn := 0 }) ∧
    refsResolve (DeleteNote stdDeps ⟨memStore⟩ (some { Name := "projects/p1/notes/n1" })
        (World.fresh mem1)).2.store = false := by
  decide

/-! ### First failure in a batch -/

/-- The storage calls of one note creation: either it returns an error after calls that
only read or create, or it returns the note with a nil error after `GetProject` and
`CreateNote` of that note. -/
theorem createNote_cases {σ : Type} (D : Deps) (g : Server σ) (n : Option Note)
    (w : World σ) :
    (∃ v e calls, (createNote D g n w).1 = .ret v (some e) ∧
      (createNote D g n w).2.trace = w.trace ++ calls ∧
      ∀ c ∈ calls, c.readsOrCreates = true) ∨
    (∃ n0 pID, n = some n0 ∧ (createNote D g n w).1 = .ret (some n0) none ∧
      (createNote D g n w).2.trace = w.trace ++ [.GetProject pID, .CreateNote n0]) := by
  cases n with
  | none =>
    exact Or.inl ⟨none, Err.status Code.InvalidArgument "Note must not be empty", [],
      by simp [createNote, statusError], by simp [createNote], by simp⟩
  | some n0 =>
    by_cases hname : n0.Name = ""
    · exact Or.inl ⟨none, Err.status Code.InvalidArgument "Note name must not be empty", [],
        by simp [createNote, hname, statusError], by simp [createNote, hname], by simp⟩
    · cases hp : D.ParseNote n0.Name with
      | error e0 =>
        exact Or.inl ⟨none, Err.status Code.InvalidArgument "Invalid note name", [],
          by simp [createNote, hname, hp, statusError], by simp [createNote, hname, hp],
          by simp⟩
      | ok ids =>
        obtain ⟨pID, nID⟩ := ids
        by_cases hg : (g.S.GetProject pID w.store).1.2 = none
        · cases hc : (g.S.CreateNote n0 (g.S.GetProject pID w.store).2).1 with
          | none =>
            exact Or.inr ⟨n0, pID, rfl,
              by simp [createNote, hname, hp, World.call, hg, hc],
              by simp [createNote, hname, hp, World.call, hg]⟩
          | some e =>
            exact Or.inl ⟨some n0, e, [.GetProject pID, .CreateNote n0],
              by simp [createNote, hname, hp, World.call, hg, hc],
              by simp [createNote, hname, hp, World.call, hg],
              by simp [Call.readsOrCreates]⟩
        · exact Or.inl ⟨none, Err.status Code.NotFound ("Project " ++ pID ++ " not found"),
            [.GetProject pID],
            by simp [createNote, hname, hp, World.call, hg, statusError],
            by simp [createNote, hname, hp, World.call, hg],
            by simp [Call.readsOrCreates]⟩

/-- Every run of `createNote` extends the trace by calls that only read or create. -/
theorem createNote_calls {σ : Type} (D : Deps) (g : Server σ) (n : Option Note)
    (w : World σ) :
    ∃ calls, (createNote D g n w).2.trace = w.trace ++ calls ∧
      ∀ c ∈ calls, c.readsOrCreates = true := by
  rcases createNote_cases D g n w with ⟨_, _, calls, _, ht, hc⟩ | ⟨n0, pID, _, _, ht⟩
  · exact ⟨calls, ht, hc⟩
  · exact ⟨_, ht, by simp [Call.readsOrCreates]⟩

/-- The storage calls of a fully successful run over notes: they only read or create, and
the `CreateNote` calls among them are the items, in order. -/
theorem notesCreated_trace {σ : Type} (D : Deps) (g : Server σ) :
    ∀ (items created : List (Option Note)) (w w1 : World σ),
      notesCreated D g items w = some (created, w1) →
      ∃ calls, w1.trace = w.trace ++ calls ∧
        (calls.filterMap Call.noteCreated).map some = items ∧
        ∀ c ∈ calls, c.readsOrCreates = true
  | [], created, w, w1, h => by
    simp only [notesCreated, Option.some.injEq, Prod.mk.injEq] at h
    exact ⟨[], by simp [← h.2], by simp, by simp⟩
  | n :: rest, created, w, w1, h => by
    unfold notesCreated at h
    rcases hc : createNote D g n w with ⟨_ | ⟨note, _ | e⟩, w2⟩
    · simp [hc] at h
    · rw [hc] at h
      simp only at h
      cases hr : notesCreated D g rest w2 with
      | none => simp [hr] at h
      | some r =>
        obtain ⟨cr, w3⟩ := r
        rw [hr] at h
        simp only [Option.some.injEq, Prod.mk.injEq] at h
        obtain ⟨-, rfl⟩ := h
        obtain ⟨calls, ht, hf, hall⟩ := notesCreated_trace D g rest cr w2 w3 hr
        rcases createNote_cases D g n w with ⟨v, e, _, hv, _, _⟩ | ⟨n0, pID, hn, _, ht0⟩
        · rw [hc] at hv
          simp at hv
        · rw [hc] at ht0
          simp only at ht0
          refine ⟨[.GetProject pID, .CreateNote n0] ++ calls, ?_, ?_, ?_⟩
          · rw [ht, ht0]
            simp
          · simp [Call.noteCreated, hf, hn]
          · intro c hmem
            rcases List.mem_append.mp hmem with hm | hm
            · revert hm
              simp only [List.mem_cons, List.mem_singleton, List.not_mem_nil, or_false]
              rintro (rfl | rfl) <;> rfl
            · exact hall c hm
    · simp [hc] at h

/-- The loop of `BatchCreateNotes` stops at the first item whose creation returns an
error: it returns that error in the world that creation left, whatever follows. -/
theorem batchNotesLoop_first_failure {σ : Type} (D : Deps) (g : Server σ) :
    ∀ (pre post acc created : List (Option Note)) (x v : Option Note) (e : Err)
      (w w1 w2 : World σ),
      notesCreated D g pre w = some (created, w1) →
      createNote D g x w1 = (.ret v (some e), w2) →
      batchNotesLoop D g (pre ++ x :: post) acc w = (.ret none (some e), w2)
  | [], post, acc, created, x, v, e, w, w1, w2, h, hx => by
    simp only [notesCreated, Option.some.injEq, Prod.mk.injEq] at h
    obtain ⟨-, rfl⟩ := h
    simp [batchNotesLoop, hx]
  | n :: rest, post, acc, created, x, v, e, w, w1, w2, h, hx => by
    unfold notesCreated at h
    rcases hc : createNote D g n w with ⟨_ | ⟨note, _ | e1⟩, w3⟩
    · simp [hc] at h
    · rw [hc] at h
      simp only at h
      cases hr : notesCreated D g rest w3 with
      | none => simp [hr] at h
      | some r =>
        obtain ⟨cr, w4⟩ := r
        rw [hr] at h
        simp only [Option.some.injEq, Prod.mk.injEq] at h
        obtain ⟨-, rfl⟩ := h
        have ih := batchNotesLoop_first_failure D g rest post (acc ++ [note]) cr x v e
          w3 w4 w2 hr hx
        simp [batchNotesLoop, hc, ih]
    · simp [hc] at h

/-- The storage calls of one occurrence creation: either it returns an error after calls
that only read or create, or it returns an occurrence with a nil error after `GetNote`,
`GetProject` and `CreateOccurrence` of the occurrence it returns. -/
theorem createOccurrence_cases {σ : Type} (D : Deps) (g : Server σ) (o : Option Occurrence)
    (parent : String) (w : World σ) :
    (∃ v e calls, (createOccurrence D g o parent w).1 = .ret v (some e) ∧
      (createOccurrence D g o parent w).2.trace = w.trace ++ calls ∧
      ∀ c ∈ calls, c.readsOrCreates = true) ∨
    (∃ o1 npID nID pID, (createOccurrence D g o parent w).1 = .ret (some o1) none ∧
      (createOccurrence D g o parent w).2.trace =
        w.trace ++ [.GetNote npID nID, .GetProject pID, .CreateOccurrence o1]) := by
  cases o with
  | none =>
    exact Or.inl ⟨none, Err.status Code.InvalidArgument "occurrence must not be empty", [],
      by simp [createOccurrence, statusError], by simp [createOccurrence], by simp⟩
  | some o0 =>
    cases hn : D.ParseNote o0.NoteName with
    | error e0 =>
      exact Or.inl ⟨none, Err.status Code.InvalidArgument "invalid note name", [],
        by simp [createOccurrence, hn, statusError], by simp [createOccurrence, hn], by simp⟩
    | ok ids =>
      obtain ⟨npID, nID⟩ := ids
      by_cases hg : (g.S.GetNote npID nID w.store).1.1 = none ∨
          (g.S.GetNote npID nID w.store).1.2 ≠ none
      · have hrun : createOccurrence D g (some o0) parent w =
            (.ret none (statusError .NotFound ("note " ++ o0.NoteName ++ " not found")),
              (w.call (.GetNote npID nID) (g.S.GetNote npID nID)).2) := by
          simp only [createOccurrence, hn]
          rw [if_pos (by simpa [World.call] using hg)]
        rw [hrun]
        exact Or.inl ⟨none, _, [.GetNote npID nID], rfl, rfl, by simp [Call.readsOrCreates]⟩
      · cases hp : D.ParseProject parent with
        | error e0 =>
          have hrun : createOccurrence D g (some o0) parent w =
              (.ret none (statusError .InvalidArgument "invalid project name"),
                (w.call (.GetNote npID nID) (g.S.GetNote npID nID)).2) := by
            simp only [createOccurrence, hn]
            rw [if_neg (by simpa [World.call] using hg)]
            simp [hp]
          rw [hrun]
          exact Or.inl ⟨none, _, [.GetNote npID nID], rfl, rfl, by simp [Call.readsOrCreates]⟩
        | ok pID =>
          by_cases hgp : (g.S.GetProject pID (g.S.GetNote npID nID w.store).2).1.2 = none
          · have hstep : createOccurrence D g (some o0) parent w =
                (match D.NewRandom w.drawn with
                  | .error _ =>
                    (.ret none (statusError .Internal "could not generate occurrence name"),
                      (((w.call (.GetNote npID nID) (g.S.GetNote npID nID)).2.call
                        (.GetProject pID) (g.S.GetProject pID)).2.newRandom D).2)
                  | .ok randID =>
                    (.ret (some { o0 with Name := D.OccurrenceName pID randID })
                        ((((w.call (.GetNote npID nID) (g.S.GetNote npID nID)).2.call
                          (.GetProject pID) (g.S.GetProject pID)).2.newRandom D).2.call
                            (.CreateOccurrence { o0 with Name := D.OccurrenceName pID randID })
                            (g.S.CreateOccurrence
                              { o0 with Name := D.OccurrenceName pID randID })).1,
                      ((((w.call (.GetNote npID nID) (g.S.GetNote npID nID)).2.call
                          (.GetProject pID) (g.S.GetProject pID)).2.newRandom D).2.call
                            (.CreateOccurrence { o0 with Name := D.OccurrenceName pID randID })
                            (g.S.CreateOccurrence
                              { o0 with Name := D.OccurrenceName pID randID })).2)) := by
              simp only [createOccurrence, hn]
              rw [if_neg (by simpa [World.call] using hg)]
              simp only [hp]
              rw [if_neg (by simpa [World.call] using hgp)]
              rfl
            rw [hstep]
            cases hid : D.NewRandom w.drawn with
            | error e0 =>
              exact Or.inl ⟨none, _, [.GetNote npID nID, .GetProject pID], rfl,
                by simp [World.call, World.newRandom], by simp [Call.readsOrCreates]⟩
            | ok randID =>
              cases hc : (g.S.CreateOccurrence { o0 with Name := D.OccurrenceName pID randID }
                  (g.S.GetProject pID (g.S.GetNote npID nID w.store).2).2).1 with
              | none =>
                exact Or.inr ⟨{ o0 with Name := D.OccurrenceName pID randID }, npID, nID, pID,
                  by simp [World.call, World.newRandom, hc],
                  by simp [World.call, World.newRandom]⟩
              | some e =>
                exact Or.inl ⟨some { o0 with Name := D.OccurrenceName pID randID }, e,
                  [.GetNote npID nID, .GetProject pID,
                    .CreateOccurrence { o0 with Name := D.OccurrenceName pID randID }],
                  by simp [World.call, World.newRandom, hc],
                  by simp [World.call, World.newRandom],
                  by simp [Call.readsOrCreates]⟩
          · have hrun : createOccurrence D g (some o0) parent w =
                (.ret none (statusError .NotFound ("project " ++ pID ++ " not found")),
                  ((w.call (.GetNote npID nID) (g.S.GetNote npID nID)).2.call
                    (.GetProject pID) (g.S.GetProject pID)).2) := by
              simp only [createOccurrence, hn]
              rw [if_neg (by simpa [World.call] using hg)]
              simp only [hp]
              rw [if_pos (by simpa [World.call] using hgp)]
            rw [hrun]
            exact Or.inl ⟨none, _, [.GetNote npID nID, .GetProject pID], rfl,
              by simp [World.call], by simp [Call.readsOrCreates]⟩

/-- Every run of `createOccurrence` extends the trace by calls that only read or create. -/
theorem createOccurrence_calls {σ : Type} (D : Deps) (g : Server σ) (o : Option Occurrence)
    (parent : String) (w : World σ) :
    ∃ calls, (createOccurrence D g o parent w).2.trace = w.trace ++ calls ∧
      ∀ c ∈ calls, c.readsOrCreates = true := by
  rcases createOccurrence_cases D g o parent w with
    ⟨_, _, calls, _, ht, hc⟩ | ⟨o1, npID, nID, pID, _, ht⟩
  · exact ⟨calls, ht, hc⟩
  · exact ⟨_, ht, by simp [Call.readsOrCreates]⟩

/-- The storage calls of a fully successful run over occurrences: they only read or
create, and the `CreateOccurrence` calls among them are the occurrences returned, in
order. -/
theorem occurrencesCreated_trace {σ : Type} (D : Deps) (g : Server σ) (parent : String) :
    ∀ (items created : List (Option Occurrence)) (w w1 : World σ),
      occurrencesCreated D g parent items w = some (created, w1) →
      ∃ calls, w1.trace = w.trace ++ calls ∧
        (calls.filterMap Call.occurrenceCreated).map some = created ∧
        ∀ c ∈ calls, c.readsOrCreates = true
  | [], created, w, w1, h => by
    simp only [occurrencesCreated, Option.some.injEq, Prod.mk.injEq] at h
    exact ⟨[], by simp [← h.2], by simp [← h.1], by simp⟩
  | o :: rest, created, w, w1, h => by
    unfold occurrencesCreated at h
    rcases hc : createOccurrence D g o parent w with ⟨_ | ⟨occ, _ | e⟩, w2⟩
    · simp [hc] at h
    · rw [hc] at h
      simp only at h
      cases hr : occurrencesCreated D g parent rest w2 with
      | none => simp [hr] at h
      | some r =>
        obtain ⟨cr, w3⟩ := r
        rw [hr] at h
        simp only [Option.some.injEq, Prod.mk.injEq] at h
        obtain ⟨rfl, rfl⟩ := h
        obtain ⟨calls, ht, hf, hall⟩ := occurrencesCreated_trace D g parent rest cr w2 w3 hr
        rcases createOccurrence_cases D g o parent w with
          ⟨v, e, _, hv, _, _⟩ | ⟨o1, npID, nID, pID, hv, ht0⟩
        · rw [hc] at hv
          simp at hv
        · rw [hc] at ht0 hv
          simp only at ht0
          simp only [Outcome.ret.injEq, and_true] at hv
          refine ⟨[.GetNote npID nID, .GetProject pID, .CreateOccurrence o1] ++ calls,
            ?_, ?_, ?_⟩
          · rw [ht, ht0]
            simp
          · simp [Call.occurrenceCreated, hf, hv]
          · intro c hmem
            rcases List.mem_append.mp hmem with hm | hm
            · revert hm
              simp only [List.mem_cons, List.mem_singleton, List.not_mem_nil, or_false]
              rintro (rfl | rfl | rfl) <;> rfl
            · exact hall c hm
    · simp [hc] at h

/-- The loop of `BatchCreateOccurrences` stops at the first item whose creation returns an
error: it returns that error in the world that creation left, whatever follows. -/
theorem batchOccurrencesLoop_first_failure {σ : Type} (D : Deps) (g : Server σ)
    (parent : String) :
    ∀ (pre post acc created : List (Option Occurrence)) (x v : Option Occurrence) (e : Err)
      (w w1 w2 : World σ),
      occurrencesCreated D g parent pre w = some (created, w1) →
      createOccurrence D g x parent w1 = (.ret v (some e), w2) →
      batchOccurrencesLoop D g parent (pre ++ x :: post) acc w = (.ret none (some e), w2)
  | [], post, acc, created, x, v, e, w, w1, w2, h, hx => by
    simp only [occurrencesCreated, Option.some.injEq, Prod.mk.injEq] at h
    obtain ⟨-, rfl⟩ := h
    simp [batchOccurrencesLoop, hx]
  | o :: rest, post, acc, created, x, v, e, w, w1, w2, h, hx => by
    unfold occurrencesCreated at h
    rcases hc : createOccurrence D g o parent w with ⟨_ | ⟨occ, _ | e1⟩, w3⟩
    · simp [hc] at h
    · rw [hc] at h
      simp only at h
      cases hr : occurrencesCreated D g parent rest w3 with
      | none => simp [hr] at h
      | some r =>
        obtain ⟨cr, w4⟩ := r
        rw [hr] at h
        simp only [Option.some.injEq, Prod.mk.injEq] at h
        obtain ⟨-, rfl⟩ := h
        have ih := batchOccurrencesLoop_first_failure D g parent rest post (acc ++ [occ]) cr
          x v e w3 w4 w2 hr hx
        simp [batchOccurrencesLoop, hc, ih]
    · simp [hc] at h

/-- C11 (counterexample). The batch of the notes `n1`, `n2` and `n3`, of which the
storage already holds `n1`, is run twice on the same storage, with two of the orders in
which a `range` can yield the entries of the map. Both runs return the `AlreadyExists`
error of `n1` and no response; the run that visits `n2` first has created `n2` and not
`n3`, the run that visits `n3` first has created `n3` and not `n2`. The notes created
before the failing one are not given by the request. -/
theorem BatchCreateNotes_created_before_failure_varies :
    [("n2", some noteN2), ("n1", some noteN1), ("n3", some noteN3)].Perm batchN1N2N3.Notes ∧
    [("n3", some noteN3), ("n1", some noteN1), ("n2", some noteN2)].Perm batchN1N2N3.Notes ∧
    (BatchCreateNotes stdDeps ⟨memStore⟩ (some batchN1N2N3)
        [("n2", some noteN2), ("n1", some noteN1), ("n3", some noteN3)]
        (World.fresh mem1)).1 =
      .ret none (some (Err.status Code.AlreadyExists "projects/p1/notes/n1 already exists")) ∧
    (BatchCreateNotes stdDeps ⟨memStore⟩ (some batchN1N2N3)
        [("n3", some noteN3), ("n1", some noteN1), ("n2", some noteN2)]
        (World.fresh mem1)).1 =
      .ret none (some (Err.status Code.AlreadyExists "projects/p1/notes/n1 already exists")) ∧
    (BatchCreateNotes stdDeps ⟨memStore⟩ (some batchN1N2N3)
        [("n2", some noteN2), ("n1", some noteN1), ("n3", some noteN3)]
        (World.fresh mem1)).2.trace =
      [.GetProject "p1", .CreateNote noteN2, .GetProject "p1", .CreateNote noteN1] ∧
    (BatchCreateNotes stdDeps ⟨memStore⟩ (some batchN1N2N3)
        [("n3", some noteN3), ("n1", some noteN1), ("n2", some noteN2)]
        (World.fresh mem1)).2.trace =
      [.GetProject "p1", .CreateNote noteN3, .GetProject "p1", .CreateNote noteN1] ∧
    (BatchCreateNotes stdDeps ⟨memStore⟩ (some batchN1N2N3)
        [("n2", some noteN2), ("n1", some noteN1), ("n3", some noteN3)]
        (World.fresh mem1)).2.store.notes =
      [(noteN1.Name, noteN1), (noteN2.Name, noteN2)] ∧
    (BatchCreateNotes stdDeps ⟨memStore⟩ (some batchN1N2N3)
        [("n3", some noteN3), ("n1", some noteN1), ("n2", some noteN2)]
        (World.fresh mem1)).2.store.notes =
      [(noteN1.Name, noteN1), (noteN3.Name, noteN3)] :=
  ⟨List.Perm.swap _ _ _,
   (List.Perm.swap _ _ _).trans ((List.Perm.swap _ _ _).cons _),
   by decide, by decide, by decide, by decide, by decide, by decide⟩

/-- C11 (amended). In a batch of at most 1000 items whose visited items `pre` are all
created and whose next visited item `x` is the first whose creation returns an error `e`:
`BatchCreateNotes` (resp. `BatchCreateOccurrences`) returns no response and exactly `e`,
in the world the creation of `x` left, whatever items `post` remain (nothing is validated
or called for them). Up to the creation of `x`, the storage create calls made are those
of the items of `pre`, in order (for occurrences: of the occurrences created for them,
one per item); and the whole run adds to the trace only calls that read or create, so
nothing created is removed. Occurrences are visited in request order; notes, whose request
field is a map, in the order `visit` of the run, so that `pre`, `x` and `post` are given
by the request and that order together. -/
theorem batch_first_failure {σ : Type} (D : Deps) (g : Server σ) (w : World σ) :
    (∀ (req : BatchCreateNotesRequest) (visit : List (String × Option Note))
        (pre post created : List (Option Note)) (x v : Option Note) (e : Err)
        (w1 w2 : World σ),
      visit.Perm req.Notes →
      visit.map Prod.snd = pre ++ x :: post →
      req.Notes.length ≤ 1000 →
      notesCreated D g pre w = some (created, w1) →
      createNote D g x w1 = (.ret v (some e), w2) →
      BatchCreateNotes D g (some req) visit w = (.ret none (some e), w2) ∧
      (∃ calls, w1.trace = w.trace ++ calls ∧
        (calls.filterMap Call.noteCreated).map some = pre) ∧
      (∃ calls, w2.trace = w.trace ++ calls ∧ ∀ c ∈ calls, c.readsOrCreates = true)) ∧
    (∀ (parent : String) (pre post created : List (Option Occurrence))
        (x v : Option Occurrence) (e : Err) (w1 w2 : World σ),
      (pre ++ x :: post).length ≤ 1000 →
      occurrencesCreated D g parent pre w = some (created, w1) →
      createOccurrence D g x parent w1 = (.ret v (some e), w2) →
      BatchCreateOccurrences D g (some { Parent := parent, Occurrences := pre ++ x :: post }) w =
        (.ret none (some e), w2) ∧
      (∃ calls, w1.trace = w.trace ++ calls ∧
        (calls.filterMap Call.occurrenceCreated).map some = created ∧
        created.length = pre.length) ∧
      (∃ calls, w2.trace = w.trace ++ calls ∧ ∀ c ∈ calls, c.readsOrCreates = true)) := by
  constructor
  · intro req visit pre post created x v e w1 w2 _ hvisit hlen hpre hx
    obtain ⟨calls, ht, hf, hall⟩ := notesCreated_trace D g pre created w w1 hpre
    obtain ⟨callsx, htx, hallx⟩ := createNote_calls D g x w1
    rw [hx] at htx
    simp only at htx
    refine ⟨?_, ⟨calls, ht, hf⟩, ⟨calls ++ callsx, ?_, ?_⟩⟩
    · have hrun : BatchCreateNotes D g (some req) visit w =
          batchNotesLoop D g (visit.map Prod.snd) [] w :=
        if_neg (Nat.not_lt.mpr hlen)
      rw [hrun, hvisit]
      exact batchNotesLoop_first_failure D g pre post [] created x v e w w1 w2 hpre hx
    · rw [htx, ht, List.append_assoc]
    · intro c hmem
      rcases List.mem_append.mp hmem with hm | hm
      · exact hall c hm
      · exact hallx c hm
  · intro parent pre post created x v e w1 w2 hlen hpre hx
    obtain ⟨calls, ht, hf, hall⟩ := occurrencesCreated_trace D g parent pre created w w1 hpre
    obtain ⟨callsx, htx, hallx⟩ := createOccurrence_calls D g x parent w1
    rw [hx] at htx
    simp only at htx
    refine ⟨?_, ⟨calls, ht, hf,
      (occurrencesCreated_forall₂ D g parent pre created w w1 hpre).length_eq⟩,
      ⟨calls ++ callsx, ?_, ?_⟩⟩
    · have hrun : BatchCreateOccurrences D g
          (some { Parent := parent, Occurrences := pre ++ x :: post }) w =
          batchOccurrencesLoop D g parent (pre ++ x :: post) [] w :=
        if_neg (Nat.not_lt.mpr hlen)
      rw [hrun]
      exact batchOccurrencesLoop_first_failure D g parent pre post [] created x v e w w1 w2
        hpre hx
    · rw [htx, ht, List.append_assoc]
    · intro c hmem
      rcases List.mem_append.mp hmem with hm | hm
      · exact hall c hm
      · exact hallx c hm

/-- Witness of C11 (amended): the batch of the notes `n1`, `n2`, `n3` visited in the order
`n2`, `n1`, `n3`, the second of which the storage already holds, and a batch of three
occurrences whose second refers to a note the storage does not hold. -/
theorem batch_first_failure_witness :
    notesCreated stdDeps ⟨memStore⟩ [some noteN2] (World.fresh mem1) =
      some ([some noteN2], worldAfterN2) ∧
    createNote stdDeps ⟨memStore⟩ (some noteN1) worldAfterN2 =
      (.ret (some noteN1)
        (some (Err.status Code.AlreadyExists "projects/p1/notes/n1 already exists")),
        worldAfterN2N1) ∧
    BatchCreateNotes stdDeps ⟨memStore⟩ (some batchN1N2N3)
        [("n2", some noteN2), ("n1", some noteN1), ("n3", some noteN3)] (World.fresh mem1) =
      (.ret none (some (Err.status Code.AlreadyExists "projects/p1/notes/n1 already exists")),
        worldAfterN2N1) ∧
    BatchCreateOccurrences stdDeps ⟨memStore⟩
        (some { Parent := "projects/p1",
                Occurrences := [some occO1] ++ some occDangling :: [some occO1] })
        (World.fresh mem1) =
      (.ret none (some (Err.status Code.NotFound "note projects/p1/notes/missing not found")),
        worldAfterId0Dangling) :=
  have h := batch_first_failure stdDeps ⟨memStore⟩ (World.fresh mem1)
  have hn : notesCreated stdDeps ⟨memStore⟩ [some noteN2] (World.fresh mem1) =
      some ([some noteN2], worldAfterN2) := by decide
  have hx : createNote stdDeps ⟨memStore⟩ (some noteN1) worldAfterN2 =
      (.ret (some noteN1)
        (some (Err.status Code.AlreadyExists "projects/p1/notes/n1 already exists")),
        worldAfterN2N1) := by decide
  have ho : occurrencesCreated stdDeps ⟨memStore⟩ "projects/p1" [some occO1]
      (World.fresh mem1) = some ([some occId0], worldAfterId0) := by decide
  have hy : createOccurrence stdDeps ⟨memStore⟩ (some occDangling) "projects/p1"
      worldAfterId0 =
      (.ret none (some (Err.status Code.NotFound "note projects/p1/notes/missing not found")),
        worldAfterId0Dangling) := by decide
  ⟨hn, hx,
   (h.1 batchN1N2N3 [("n2", some noteN2), ("n1", some noteN1), ("n3", some noteN3)]
      [some noteN2] [some noteN3] [some noteN2] (some noteN1) (some noteN1) _ _ _
      (List.Perm.swap _ _ _) rfl (by decide) hn hx).1,
   (h.2 "projects/p1" [some occO1] [some occO1] [some occId0] (some occDangling) none _ _ _
      (by decide) ho hy).1⟩

end Grafeas
